import Mathlib

/-!
Verification of the rmp-eval real-time capability evaluator.

This file gives a shallow embedding of the parts of `src/source/main.cpp` and
`src/source/config.cpp` that the specification's claims are about:

* the timespec arithmetic and the sender thread's absolute-deadline catch-up
  loop (`AddNanoToTimespec`, `catchUp`, `senderNextDeadline`);
* the first/last-iteration exclusion rule of the measurement threads
  (`recordTime`);
* the CPU-list parser (`ParseCpuList`), the kernel-command-line scanner
  (`GetCmdLineParam`) and the configuration check catalog
  (`CheckKind`/`Status`/`CheckResult`/`IDataSource` plus one `…Evaluate`
  function per check), together with the NIC-section gating of the
  report driver (`nicSection`).

C++ `uint64_t` arithmetic is modelled on `Nat` with an explicit
`% UInt64Mod`; `int`/`int64_t` values are modelled on `Int`; C++ functions
that throw are modelled with `Option`.  The declarations named `Modelled from
the spec` stand for code of the repository that lives in headers not present
under `src/` (`config.h`, the timing helpers); everything else is translated
directly from the two source files.
-/

set_option maxHeartbeats 1000000

namespace Evaluator

/-! ## String helpers (config.cpp anonymous namespace) -/

/-- C-locale `isspace`: space, `\t`, `\n`, `\v`, `\f`, `\r`. -/
def isSpaceB (c : Char) : Bool :=
  c = ' ' || c = '\t' || c = '\n' || c = Char.ofNat 11 || c = Char.ofNat 12 || c = '\r'

/-- Model of `std::isdigit` on the default locale. -/
def isDigitB (c : Char) : Bool :=
  '0' ≤ c && c ≤ '9'

/-- Model of `Trim` from config.cpp lines 40-46, on character lists: remove leading and
trailing whitespace. -/
def trimL (s : List Char) : List Char :=
  ((s.dropWhile isSpaceB).reverse.dropWhile isSpaceB).reverse

/-- Model of `Trim` at the `std::string` level. -/
def Trim (s : String) : String := ⟨trimL s.data⟩

/-- Whether `pat` is a prefix of `s`; models `str.rfind(pat, 0) == 0`. -/
def hasPfx : List Char → List Char → Bool
  | [], _ => true
  | _ :: _, [] => false
  | p :: ps, x :: xs => p = x && hasPfx ps xs

/-- Whether `needle` occurs as a substring of `hay`; models
`hay.find(needle) != std::string::npos`. -/
def containsSub : List Char → List Char → Bool
  | [], needle => hasPfx needle []
  | h :: t, needle => hasPfx needle (h :: t) || containsSub t needle

/-- One step of splitting a character list at a delimiter. -/
def splitOnCharAux (delim : Char) (c : Char) (acc : List (List Char)) : List (List Char) :=
  if c = delim then [] :: acc
  else
    match acc with
    | [] => [[c]]
    | t :: ts => (c :: t) :: ts

/-- Split a character list at every occurrence of `delim`; `"a,,b"` gives the
three fields `a`, `(empty)`, `b`.  Models repeated `std::getline(stream, tok,
delim)` up to a possible trailing empty field (which every caller skips). -/
def splitOnChar (delim : Char) (s : List Char) : List (List Char) :=
  s.foldr (splitOnCharAux delim) [[]]

/-- One step of whitespace tokenization. -/
def splitWsAux (c : Char) (acc : List (List Char)) : List (List Char) :=
  if isSpaceB c then [] :: acc
  else
    match acc with
    | [] => [[c]]
    | t :: ts => (c :: t) :: ts

/-- Whitespace tokenization: the list of maximal non-whitespace runs, in
order.  Models repeated `stream >> tok` extraction. -/
def splitWs (s : List Char) : List (List Char) :=
  (s.foldr splitWsAux []).filter (· ≠ [])

/-- Split into lines with `std::getline` semantics: a trailing newline does
not produce a final empty line, and an empty input produces no lines. -/
def getLines (s : List Char) : List (List Char) :=
  if s = [] then []
  else
    let parts := splitOnChar '\n' s
    if s.getLast? = some '\n' then parts.dropLast else parts

/-- Index of the first occurrence of `c`; models `str.find(c)`. -/
def findCharIdx (c : Char) : List Char → Option Nat
  | [] => none
  | x :: xs => if x = c then some 0 else (findCharIdx c xs).map (· + 1)

/-- Extract the next whitespace-delimited token together with the untouched
remainder of the input (the characters right after the token).  Models a
single `stream >> tok` followed by further reads on the same stream. -/
def nextTok (s : List Char) : Option (List Char × List Char) :=
  match s.dropWhile isSpaceB with
  | [] => none
  | c :: cs => some ((c :: cs).takeWhile (fun d => !isSpaceB d),
                     (c :: cs).dropWhile (fun d => !isSpaceB d))

/-- Number recognition shared by `std::stoi` / `std::stoll` (base 10):
optional leading whitespace, optional sign, then at least one decimal digit;
parsing stops at the first non-digit.  `none` when no digit is found (the C++
functions throw `std::invalid_argument` there, which every caller in the
sources catches). -/
def stoiCore (s : List Char) : Option Int :=
  let s1 := s.dropWhile isSpaceB
  let signed : Bool × List Char :=
    match s1 with
    | '-' :: rest => (true, rest)
    | '+' :: rest => (false, rest)
    | _ => (false, s1)
  let ds := signed.2.takeWhile isDigitB
  if ds = [] then none
  else
    let v : Int := ds.foldl (fun a c => a * 10 + ((c.toNat : Int) - ('0'.toNat : Int))) 0
    some (if signed.1 then -v else v)

/-- Model of `std::stoi`: `none` also when the value overflows `int` (the C++ function
throws `std::out_of_range`). -/
def stoiOpt (s : List Char) : Option Int :=
  (stoiCore s).bind fun v =>
    if v < -2147483648 ∨ 2147483647 < v then none else some v

/-- Model of `std::stoll`: `none` also when the value overflows `int64_t`. -/
def stollOpt (s : List Char) : Option Int :=
  (stoiCore s).bind fun v =>
    if v < -9223372036854775808 ∨ 9223372036854775807 < v then none else some v

/-- Model of `std::stoll` under a `catch` that turns any exception into the value 0
(config.cpp line 628). -/
def stollOr0 (s : List Char) : Int := (stollOpt s).getD 0

/-! ## Timing primitives (main.cpp) -/

/-- Modelled from the spec: `Evaluator::NanoPerSec`, declared in a header not
present under `src/`; nanoseconds per second. -/
def NanoPerSec : Nat := 1000000000

/-- The modulus of C++ `uint64_t` arithmetic. -/
def UInt64Mod : Nat := 18446744073709551616

/-- Model of `struct timespec` with the nonnegative field values produced by
`clock_gettime(CLOCK_MONOTONIC, …)` and by `AddNanoToTimespec`. -/
structure Timespec where
  tv_sec : Nat
  tv_nsec : Nat
deriving DecidableEq

/-- Modelled from the spec: `Evaluator::ToEpoch`, declared in a header not
present under `src/`.  Per the comment in `AddNanoToTimespec` (main.cpp lines
94-96) it combines both components into a single time value in
nanoseconds. -/
def ToEpoch (t : Timespec) : Nat := t.tv_sec * NanoPerSec + t.tv_nsec

/-- Model of `AddNanoToTimespec` from main.cpp lines 92-104.  The sum
`Evaluator::ToEpoch(*time) + nanos` is computed in `uint64_t`, hence the
explicit wrap-around modulus. -/
def AddNanoToTimespec (t : Timespec) (nanos : Nat) : Timespec :=
  let nanoEpoch : Nat := (ToEpoch t + nanos) % UInt64Mod
  ⟨nanoEpoch / NanoPerSec, nanoEpoch % NanoPerSec⟩

/-- The catch-up loop of the sender thread (main.cpp lines 139-142):
`while (current > Evaluator::ToEpoch(next)) AddNanoToTimespec(&next, sleep);`.
The C++ loop has no fuel; the `fuel` argument makes the recursion structural,
and the theorems about the loop assume fuel large enough for the loop to have
reached its exit condition. -/
def catchUp : Nat → Timespec → Nat → Nat → Timespec
  | 0, next, _, _ => next
  | fuel + 1, next, sleep, current =>
    if current > ToEpoch next then catchUp fuel (AddNanoToTimespec next sleep) sleep current
    else next

/-- The full deadline update of one sender iteration (main.cpp lines 136-142):
advance `next` by the sleep once, then run the catch-up loop against the
observed time `current`. -/
def senderNextDeadline (next : Timespec) (sendSleep current fuel : Nat) : Timespec :=
  catchUp fuel (AddNanoToTimespec next sendSleep) sendSleep current

/-- Model of `recordTime` from main.cpp line 121: record all iterations except the
first and the last. -/
def recordTime (index iterations : Nat) : Bool :=
  index != 0 && index != (iterations - 1)

/-- The iteration indices of a complete `iterations`-long sender run at which
`report.AddObservation` is called (main.cpp lines 131-134). -/
def senderRecordedIndices (iterations : Nat) : List Nat :=
  (List.range iterations).filter (fun index => recordTime index iterations)

/-- Modelled from the spec: `ReportData` (declared in a header not present
under `src/`) holds a sample count, and each `AddObservation` call records one
sample; the count of a complete run is therefore the number of recording
iterations. -/
def senderSampleCount (iterations : Nat) : Nat :=
  (senderRecordedIndices iterations).length

/-! ## Configuration-check data model (modelled from the spec for the missing
config.h declarations, with the enumerators read off from their uses in
config.cpp) -/

/-- Modelled from the spec: the three-valued check status. -/
inductive Status
  | Pass
  | Fail
  | Unknown
deriving DecidableEq

/-- Modelled from the spec: the report grouping domain. -/
inductive Domain
  | System
  | Cpu
  | Nic
deriving DecidableEq

/-- Modelled from the spec: the closed check-identity enum. -/
inductive CheckKind
  | PreemptRTActive
  | SwapDisabled
  | TimerMigration
  | RtThrottlingDisabled
  | ClocksourceStable
  | CoreIsolated
  | NohzFull
  | RcuNoCbs
  | CpuGovernor
  | CpuFrequency
  | IrqAffinityDefaultAvoidsRt
  | NoUnrelatedIrqsOnRt
  | SmtSiblingIsolated
  | DeepCStatesCapped
  | TurboBoostPolicy
  | NicPresent
  | NicLinkUp
  | NicIrqsPinned
  | RpsDisabled
  | NicQuiet
deriving DecidableEq

/-- Modelled from the spec: the check context, an optional RT core and an
optional NIC name. -/
structure CheckContext where
  cpu : Option Int
  nic : Option String
deriving DecidableEq

/-- Modelled from the spec: the result record every check returns. -/
structure CheckResult where
  kind : CheckKind
  status : Status
  name : String
  reason : String
deriving DecidableEq

/-- Modelled from the spec: the data-source seam; `Read` takes a path,
`CmdLineParam` a kernel-command-line key, and `none` means not readable / not
present. -/
structure IDataSource where
  Read : String → Option String
  CmdLineParam : String → Option String

/-- Address family of a getifaddrs entry, as distinguished by NicQuietCheck. -/
inductive AddrFamily
  | v4
  | v6
  | other
deriving DecidableEq

/-- Modelled from the spec: the ambient OS facts that some checks consult
outside the data source — `uname` (PreemptRTActiveCheck), the getifaddrs
interface-address list (NicQuietCheck) and the NIC queue-directory listing
(RpsDisabledCheck), the latter as (entry name, is_directory) pairs. -/
structure SysEnv where
  unameOk : Bool
  unameVersion : String
  unameRelease : String
  ifaddrsOk : Bool
  ifaddrs : List (String × AddrFamily)
  queuesDirOk : Bool
  queueEntries : List (String × Bool)

/-- The in-memory stub data source used by the theorems: a path→content map
plus a key→value map for command-line parameters. -/
def mkSource (files : List (String × String)) (params : List (String × String)) : IDataSource :=
  ⟨fun path => files.lookup path, fun key => params.lookup key⟩

/-- A data source on which nothing is readable. -/
def emptySource : IDataSource := ⟨fun _ => none, fun _ => none⟩

/-- A concrete environment for the theorems: `uname` succeeds on a
non-RT kernel, getifaddrs succeeds with no addresses, and the NIC queue
directory exists but is empty. -/
def plainEnv : SysEnv := ⟨true, "#1 SMP Debian 6.1", "6.1.0-amd64", true, [], true, []⟩

/-! ## ParseCpuList (config.cpp lines 76-106) -/

/-- Processing of one comma-separated token of `ParseCpuList` (config.cpp
lines 85-103): trim it, skip it when empty, split at the first dash if any,
parse with `std::stoi` (any exception drops the token), swap reversed range
endpoints, and insert the covered values. -/
def parseCpuToken (out : Finset Int) (token : List Char) : Finset Int :=
  let t := trimL token
  if t = [] then out
  else
    match findCharIdx '-' t with
    | none =>
      match stoiOpt t with
      | none => out
      | some value => insert value out
    | some dash =>
      match stoiOpt (t.take dash), stoiOpt (t.drop (dash + 1)) with
      | some first, some second =>
        let range := if first > second then (second, first) else (first, second)
        out ∪ Finset.Icc range.1 range.2
      | _, _ => out

/-- Model of `ParseCpuList` from config.cpp lines 76-106. -/
def ParseCpuList (s : String) : Finset Int :=
  let trimmed := trimL s.data
  if trimmed = [] then ∅
  else (splitOnChar ',' trimmed).foldl parseCpuToken ∅

/-- Value of a nonempty all-digit token. -/
def digitsVal (ds : List Char) : Int :=
  ds.foldl (fun a c => a * 10 + ((c.toNat : Int) - ('0'.toNat : Int))) 0

/-- Whether a token is a plain (nonnegative) integer: nonempty and
digits-only. -/
def isIntTok (t : List Char) : Bool :=
  !t.isEmpty && t.all isDigitB

/-- Modelled from the claim's words (C3): a token is either a single integer
`N` or a range `N-M` (exactly one dash, both sides integers, endpoints
swapped when reversed); whitespace around tokens is ignored; every other
token is dropped. -/
def parseCpuTokenClaim (token : List Char) : Finset Int :=
  let t := trimL token
  if isIntTok t then {digitsVal t}
  else
    match splitOnChar '-' t with
    | [first, second] =>
      if isIntTok first && isIntTok second then
        Finset.Icc (min (digitsVal first) (digitsVal second))
                   (max (digitsVal first) (digitsVal second))
      else ∅
    | _ => ∅

/-- Modelled from the claim's words (C3): the set covered by the
comma-separated tokens. -/
def ParseCpuListClaim (s : String) : Finset Int :=
  (splitOnChar ',' s.data).foldl (fun out token => out ∪ parseCpuTokenClaim token) ∅

/-! ## GetCmdLineParam (config.cpp lines 113-133) -/

/-- Token scan of `GetCmdLineParam` (config.cpp lines 119-131): for each
whitespace token, a token without `=` matches when it equals the key
(boolean-like flag, empty result); a token with `=` matches when the part
before the first `=` equals the key (result is the part after it). -/
def cmdScan (key : List Char) : List (List Char) → Option (List Char)
  | [] => none
  | token :: rest =>
    match findCharIdx '=' token with
    | none => if token = key then some [] else cmdScan key rest
    | some eq => if token.take eq = key then some (token.drop (eq + 1)) else cmdScan key rest

/-- Model of `GetCmdLineParam` from config.cpp lines 113-133, with the content of
`/proc/cmdline` (the result of `ReadCmdLine`, `none` when unreadable) passed
explicitly. -/
def GetCmdLineParam (cmdline : Option String) (key : String) : Option String :=
  cmdline.bind fun cmd => (cmdScan key.data (splitWs cmd.data)).map String.mk

/-- Modelled from the claim's words (C8): scanning tokens in order, return
empty for the first token equal to the key, the suffix for the first token
starting with `key=`, and `none` when no token matches. -/
def cmdScanClaim (key : List Char) : List (List Char) → Option (List Char)
  | [] => none
  | token :: rest =>
    if token = key then some []
    else if hasPfx (key ++ ['=']) token then some (token.drop (key.length + 1))
    else cmdScanClaim key rest

/-- Modelled from the claim's words (C8): the whole contract at the string
level. -/
def GetCmdLineParamClaim (cmdline : Option String) (key : String) : Option String :=
  cmdline.bind fun cmd => (cmdScanClaim key.data (splitWs cmd.data)).map String.mk

/-! ## The check catalog (config.cpp lines 284-1032) -/

/-- Model of `NicExists` from config.cpp lines 214-219. -/
def NicExists (dataSource : IDataSource) (nic : String) : Bool :=
  (dataSource.Read ("/sys/class/net/" ++ nic ++ "/operstate")).isSome ||
  (dataSource.Read ("/sys/class/net/" ++ nic ++ "/carrier")).isSome ||
  (dataSource.Read ("/sys/class/net/" ++ nic ++ "/address")).isSome

/-- Model of `NohzFullCheck::Evaluate` from config.cpp lines 291-312. -/
def NohzFullCheck.Evaluate (checkContext : CheckContext) (dataSource : IDataSource) : CheckResult :=
  match checkContext.cpu with
  | none => ⟨CheckKind.NohzFull, Status.Unknown, "nohz_full on RT core", "no CPU subject"⟩
  | some cpu =>
    match dataSource.Read "/sys/devices/system/cpu/nohz_full" with
    | some sysfsValue =>
      let raw := Trim sysfsValue
      let set := ParseCpuList raw
      if cpu ∈ set then
        ⟨CheckKind.NohzFull, Status.Pass, "nohz_full on RT core",
          "nohz_full list: " ++ (if raw = "" then "(empty)" else raw)⟩
      else
        ⟨CheckKind.NohzFull, Status.Fail, "nohz_full on RT core",
          "CPU" ++ toString cpu ++ " not in nohz_full: " ++ (if raw = "" then "(empty)" else raw)⟩
    | none =>
      match dataSource.CmdLineParam "nohz_full" with
      | some cmdlineValue =>
        let set := ParseCpuList cmdlineValue
        if cpu ∈ set then
          ⟨CheckKind.NohzFull, Status.Pass, "nohz_full on RT core", "cmdline nohz_full=" ++ cmdlineValue⟩
        else
          ⟨CheckKind.NohzFull, Status.Fail, "nohz_full on RT core", "RT core not in cmdline nohz_full=" ++ cmdlineValue⟩
      | none => ⟨CheckKind.NohzFull, Status.Unknown, "nohz_full on RT core", "no sysfs entry and no cmdline param"⟩

/-- Model of `NicPresenceCheck::Evaluate` from config.cpp lines 322-331. -/
def NicPresenceCheck.Evaluate (checkContext : CheckContext) (dataSource : IDataSource) : CheckResult :=
  match checkContext.nic with
  | none => ⟨CheckKind.NicPresent, Status.Unknown, "NIC interface present", "no NIC in context"⟩
  | some nic =>
    if NicExists dataSource nic then
      ⟨CheckKind.NicPresent, Status.Pass, "NIC interface present", "exists"⟩
    else
      ⟨CheckKind.NicPresent, Status.Unknown, "NIC interface present", "interface not found"⟩

/-- Model of `NicLinkUpCheck::Evaluate` from config.cpp lines 341-362. -/
def NicLinkUpCheck.Evaluate (checkContext : CheckContext) (dataSource : IDataSource) : CheckResult :=
  match checkContext.nic with
  | none => ⟨CheckKind.NicLinkUp, Status.Unknown, "NIC link is UP", "no NIC in context"⟩
  | some nic =>
    if NicExists dataSource nic = false then
      ⟨CheckKind.NicLinkUp, Status.Unknown, "NIC link is UP", "NIC not found"⟩
    else
      let operResult : Option CheckResult :=
        match dataSource.Read ("/sys/class/net/" ++ nic ++ "/operstate") with
        | none => none
        | some oper =>
          let v := Trim oper
          if v = "up" then some ⟨CheckKind.NicLinkUp, Status.Pass, "NIC link is UP", "operstate=up"⟩
          else if v ≠ "" then some ⟨CheckKind.NicLinkUp, Status.Fail, "NIC link is UP", "operstate=" ++ v⟩
          else none
      match operResult with
      | some r => r
      | none =>
        let carrierResult : Option CheckResult :=
          match dataSource.Read ("/sys/class/net/" ++ nic ++ "/carrier") with
          | none => none
          | some car =>
            let v := Trim car
            if v = "1" then some ⟨CheckKind.NicLinkUp, Status.Pass, "NIC link is UP", "carrier=1"⟩
            else if v = "0" then some ⟨CheckKind.NicLinkUp, Status.Fail, "NIC link is UP", "carrier=0"⟩
            else none
        match carrierResult with
        | some r => r
        | none => ⟨CheckKind.NicLinkUp, Status.Unknown, "NIC link is UP", "no operstate/carrier"⟩

/-- Model of `PreemptRTActiveCheck::Evaluate` from config.cpp lines 372-399; the
`uname` results come from the environment. -/
def PreemptRTActiveCheck.Evaluate (_ : CheckContext) (dataSource : IDataSource) (env : SysEnv) : CheckResult :=
  let fallback : CheckResult :=
    if env.unameOk then
      if containsSub env.unameVersion.data "PREEMPT RT".data ||
         containsSub env.unameVersion.data "PREEMPT_RT".data then
        ⟨CheckKind.PreemptRTActive, Status.Pass, "PREEMPT_RT active", "uname -v: " ++ env.unameVersion⟩
      else
        match dataSource.Read ("/boot/config-" ++ env.unameRelease) with
        | some config =>
          if containsSub config.data "CONFIG_PREEMPT_RT=y".data ||
             containsSub config.data "CONFIG_PREEMPT_RT_FULL=y".data then
            ⟨CheckKind.PreemptRTActive, Status.Pass, "PREEMPT_RT active",
              "/boot/config-" ++ env.unameRelease ++ " has CONFIG_PREEMPT_RT=y"⟩
          else if containsSub config.data "CONFIG_PREEMPT=y".data then
            ⟨CheckKind.PreemptRTActive, Status.Fail, "PREEMPT_RT active", "Only low-latency PREEMPT, not RT"⟩
          else
            ⟨CheckKind.PreemptRTActive, Status.Fail, "PREEMPT_RT active", "No evidence of RT kernel"⟩
        | none => ⟨CheckKind.PreemptRTActive, Status.Fail, "PREEMPT_RT active", "No evidence of RT kernel"⟩
    else ⟨CheckKind.PreemptRTActive, Status.Fail, "PREEMPT_RT active", "No evidence of RT kernel"⟩
  match dataSource.Read "/sys/kernel/realtime" with
  | some sysfsValue =>
    let value := Trim sysfsValue
    if value = "1" then ⟨CheckKind.PreemptRTActive, Status.Pass, "PREEMPT_RT active", "/sys/kernel/realtime=1"⟩
    else if value = "0" then ⟨CheckKind.PreemptRTActive, Status.Fail, "PREEMPT_RT active", "/sys/kernel/realtime=0"⟩
    else fallback
  | none => fallback

/-- Model of `CoreIsolatedCheck::Evaluate` from config.cpp lines 409-424. -/
def CoreIsolatedCheck.Evaluate (checkContext : CheckContext) (dataSource : IDataSource) : CheckResult :=
  match checkContext.cpu with
  | none => ⟨CheckKind.CoreIsolated, Status.Unknown, "RT core isolated", "no CPU subject"⟩
  | some cpu =>
    match dataSource.Read "/sys/devices/system/cpu/isolated" with
    | none => ⟨CheckKind.CoreIsolated, Status.Unknown, "RT core isolated", "no /sys/.../isolated"⟩
    | some s =>
      let raw := Trim s
      let set := ParseCpuList raw
      if cpu = 0 then
        if cpu ∈ set then
          ⟨CheckKind.CoreIsolated, Status.Fail, "RT core isolated", "CPU0 is isolated but should not be your RT core"⟩
        else
          ⟨CheckKind.CoreIsolated, Status.Fail, "RT core isolated", "CPU0 selected; choose non-CPU0"⟩
      else if cpu ∈ set then
        ⟨CheckKind.CoreIsolated, Status.Pass, "RT core isolated",
          "isolated list: " ++ (if raw = "" then "(empty)" else raw)⟩
      else
        ⟨CheckKind.CoreIsolated, Status.Fail, "RT core isolated",
          "CPU" ++ toString cpu ++ " not in isolated: " ++ (if raw = "" then "(empty)" else raw)⟩

/-- Model of `CpuGovernorCheck::Evaluate` from config.cpp lines 434-444. -/
def CpuGovernorCheck.Evaluate (checkContext : CheckContext) (dataSource : IDataSource) : CheckResult :=
  match checkContext.cpu with
  | none => ⟨CheckKind.CpuGovernor, Status.Unknown, "CPU governor = performance", "no CPU subject"⟩
  | some cpu =>
    match dataSource.Read ("/sys/devices/system/cpu/cpu" ++ toString cpu ++ "/cpufreq/scaling_governor") with
    | none =>
      ⟨CheckKind.CpuGovernor, Status.Unknown, "CPU governor = performance",
        "no cpufreq governor for cpu" ++ toString cpu⟩
    | some s =>
      let gov := Trim s
      if gov = "performance" then
        ⟨CheckKind.CpuGovernor, Status.Pass, "CPU governor = performance", "governor=" ++ gov⟩
      else
        ⟨CheckKind.CpuGovernor, Status.Fail, "CPU governor = performance", "governor=" ++ gov⟩

/-- Model of `CpuFrequencyCheck::read_int64` from config.cpp lines 454-459. -/
def read_int64 (dataSource : IDataSource) (path : String) : Option Int :=
  (dataSource.Read path).bind fun value => stollOpt (Trim value).data

/-- Approximation of the `std::stod` success condition used by the
`/proc/cpuinfo` fallback: after optional whitespace and sign, a decimal
number with at least one digit.  (The exotic inputs stod also accepts —
hex, inf, nan — and its floating-point value are not modelled; no claim
depends on this branch.) -/
def stodOk (s : List Char) : Bool :=
  let s1 := s.dropWhile isSpaceB
  let s2 :=
    match s1 with
    | '-' :: rest => rest
    | '+' :: rest => rest
    | _ => s1
  match s2 with
  | '.' :: rest => !(rest.takeWhile isDigitB).isEmpty
  | _ => !(s2.takeWhile isDigitB).isEmpty

/-- The `/proc/cpuinfo` fallback scan of `CpuFrequencyCheck` (config.cpp
lines 503-519): track the current `processor` number and remember the last
`cpu MHz` value seen for the requested cpu.  The value is kept as the raw
trimmed string; the formatting of the parsed double through
`std::to_string` is not modelled (no claim depends on this branch's reason
text, only on its Unknown status). -/
def cpuinfoMhzScan (cpu : Int) : List (List Char) → Int → Option (List Char) → Option (List Char)
  | [], _, mhzValue => mhzValue
  | line :: rest, currentProcessor, mhzValue =>
    if hasPfx "processor".data line then
      let nextProcessor :=
        match findCharIdx ':' line with
        | none => currentProcessor
        | some pos =>
          match stoiOpt (trimL (line.drop (pos + 1))) with
          | none => -1
          | some v => v
      cpuinfoMhzScan cpu rest nextProcessor mhzValue
    else if hasPfx "cpu MHz".data line && currentProcessor == cpu then
      let nextMhz :=
        match findCharIdx ':' line with
        | none => mhzValue
        | some pos =>
          if stodOk (trimL (line.drop (pos + 1))) then some (trimL (line.drop (pos + 1))) else none
      cpuinfoMhzScan cpu rest currentProcessor nextMhz
    else cpuinfoMhzScan cpu rest currentProcessor mhzValue

/-- Model of `CpuFrequencyCheck::Evaluate` from config.cpp lines 461-523.  The C++
tolerance `(*max_freq * 5) / 100` divides `int64_t` values, hence
`Int.tdiv` (truncation toward zero). -/
def CpuFrequencyCheck.Evaluate (checkContext : CheckContext) (dataSource : IDataSource) : CheckResult :=
  match checkContext.cpu with
  | none => ⟨CheckKind.CpuFrequency, Status.Unknown, "CPU current frequency", "no CPU subject"⟩
  | some cpu =>
    let currentFreq := read_int64 dataSource ("/sys/devices/system/cpu/cpu" ++ toString cpu ++ "/cpufreq/" ++ "scaling_cur_freq")
    let minFreq := read_int64 dataSource ("/sys/devices/system/cpu/cpu" ++ toString cpu ++ "/cpufreq/" ++ "scaling_min_freq")
    let maxFreq := read_int64 dataSource ("/sys/devices/system/cpu/cpu" ++ toString cpu ++ "/cpufreq/" ++ "scaling_max_freq")
    match currentFreq, minFreq, maxFreq with
    | some cur, some mn, some mx =>
      if mn = mx then
        let tolerance : Int := Int.tdiv (mx * 5) 100
        if |cur - mx| ≤ tolerance then
          ⟨CheckKind.CpuFrequency, Status.Pass, "CPU current frequency", toString mx ++ " kHz (locked)"⟩
        else
          ⟨CheckKind.CpuFrequency, Status.Fail, "CPU current frequency",
            "cur=" ++ toString cur ++ " kHz, locked=" ++ toString mx ++ " kHz"⟩
      else
        ⟨CheckKind.CpuFrequency, Status.Fail, "CPU current frequency",
          "cur=" ++ toString cur ++ " kHz" ++ ", min=" ++ toString mn ++ " kHz" ++ ", max=" ++ toString mx ++ " kHz"⟩
    | _, _, _ =>
      if currentFreq.isSome || minFreq.isSome || maxFreq.isSome then
        ⟨CheckKind.CpuFrequency, Status.Unknown, "CPU current frequency",
          "cur=" ++ (match currentFreq with | some c => toString c ++ " kHz" | none => "?") ++
          ", min=" ++ (match minFreq with | some m => toString m ++ " kHz" | none => "?") ++
          ", max=" ++ (match maxFreq with | some m => toString m ++ " kHz" | none => "?")⟩
      else
        match dataSource.Read "/proc/cpuinfo" with
        | some cpuinfo =>
          match cpuinfoMhzScan cpu (getLines cpuinfo.data) (-1) none with
          | some mhzRaw =>
            ⟨CheckKind.CpuFrequency, Status.Unknown, "CPU current frequency",
              String.mk mhzRaw ++ " MHz (/proc/cpuinfo)"⟩
          | none => ⟨CheckKind.CpuFrequency, Status.Unknown, "CPU current frequency", "unavailable"⟩
        | none => ⟨CheckKind.CpuFrequency, Status.Unknown, "CPU current frequency", "unavailable"⟩

/-- Model of `RcuNoCbsCheck::Evaluate` from config.cpp lines 533-544. -/
def RcuNoCbsCheck.Evaluate (checkContext : CheckContext) (dataSource : IDataSource) : CheckResult :=
  match checkContext.cpu with
  | none => ⟨CheckKind.RcuNoCbs, Status.Unknown, "rcu_nocbs includes RT core", "no CPU subject"⟩
  | some cpu =>
    let rawOpt : Option String :=
      match dataSource.Read "/sys/devices/system/cpu/rcu_nocbs" with
      | some sysfsValue => some (Trim sysfsValue)
      | none =>
        match dataSource.CmdLineParam "rcu_nocbs" with
        | some cmdlineValue => some (Trim cmdlineValue)
        | none => none
    match rawOpt with
    | none => ⟨CheckKind.RcuNoCbs, Status.Unknown, "rcu_nocbs includes RT core", "no sysfs and no cmdline param"⟩
    | some raw =>
      let set := ParseCpuList raw
      if cpu ∈ set then ⟨CheckKind.RcuNoCbs, Status.Pass, "rcu_nocbs includes RT core", raw⟩
      else
        ⟨CheckKind.RcuNoCbs, Status.Fail, "rcu_nocbs includes RT core",
          "CPU" ++ toString cpu ++ " not in rcu_nocbs: " ++ (if raw = "" then "(empty)" else raw)⟩

/-- Model of `IrqAffinityDefaultAvoidsRtCheck::Evaluate` from config.cpp lines
554-564. -/
def IrqAffinityDefaultAvoidsRtCheck.Evaluate (checkContext : CheckContext) (dataSource : IDataSource) : CheckResult :=
  match checkContext.cpu with
  | none => ⟨CheckKind.IrqAffinityDefaultAvoidsRt, Status.Unknown, "irqaffinity excludes RT core", "no CPU subject"⟩
  | some cpu =>
    match dataSource.CmdLineParam "irqaffinity" with
    | none => ⟨CheckKind.IrqAffinityDefaultAvoidsRt, Status.Unknown, "irqaffinity excludes RT core", "no irqaffinity kernel param"⟩
    | some value =>
      let set := ParseCpuList value
      if set = ∅ then
        ⟨CheckKind.IrqAffinityDefaultAvoidsRt, Status.Unknown, "irqaffinity excludes RT core", "empty list"⟩
      else if cpu ∈ set then
        ⟨CheckKind.IrqAffinityDefaultAvoidsRt, Status.Fail, "irqaffinity excludes RT core",
          "RT core present in irqaffinity: " ++ value⟩
      else ⟨CheckKind.IrqAffinityDefaultAvoidsRt, Status.Pass, "irqaffinity excludes RT core", value⟩

/-- Modelled from the spec: `CpuPrefix` from the missing config.h; the
`/proc/interrupts` header labels columns `CPU<N>`. -/
def CpuHeaderTag : List Char := "CPU".data

/-- Modelled from the spec: `MaxIrqsToShow` from the missing config.h; the
spec says offenders are listed "up to a small fixed number (e.g., 5)". -/
def MaxIrqsToShow : Nat := 5

/-- Header scan of `NoUnrelatedIrqsOnRtCheck` (config.cpp lines 592-602):
count the `CPU`-prefixed columns and remember the index of column
`CPU<cpu>`. -/
def findCpuColumnAux (cpu : Int) : List (List Char) → Int → Int → Int
  | [], _, cpuColumn => cpuColumn
  | column :: rest, idx, cpuColumn =>
    if hasPfx CpuHeaderTag column then
      let idx' := idx + 1
      let cpuColumn' := if (toString cpu).data = column.drop CpuHeaderTag.length then idx' else cpuColumn
      findCpuColumnAux cpu rest idx' cpuColumn'
    else findCpuColumnAux cpu rest idx cpuColumn

/-- Column index of the RT core in the `/proc/interrupts` header (−1 when
absent), starting from the source's initial values `index = -1`,
`cpu_column = -1`. -/
def findCpuColumn (cpu : Int) (toks : List (List Char)) : Int :=
  findCpuColumnAux cpu toks (-1) (-1)

/-- Column scan of one `/proc/interrupts` row (config.cpp lines 610-629):
walk the whitespace-separated tokens after the colon; numeric tokens advance
the column index, capturing the count at the RT core's column; the first
non-numeric token stops the scan and starts the label, which extends to the
end of the line (the token plus the raw remainder).  Returns (the label if
one was seen, the count at the RT column).  The fuel argument makes the
recursion structural; fuel `s.length + 1` always suffices because every
token consumes at least one character. -/
def scanRow (cpuColumn : Int) : Nat → List Char → Int → Int → Option (List Char) × Int
  | 0, _, _, value => (none, value)
  | fuel + 1, s, idx, value =>
    match nextTok s with
    | none => (none, value)
    | some (token, rest) =>
      if token.all isDigitB then
        let idx' := idx + 1
        scanRow cpuColumn fuel rest idx' (if idx' = cpuColumn then stollOr0 token else value)
      else (some (token ++ rest), value)

/-- Row processing of `NoUnrelatedIrqsOnRtCheck` (config.cpp lines 606-630):
skip indentation, require a leading digit and a colon, scan the counts, and
produce an offender entry if the RT core's count is nonzero and the label
(when present) does not contain the NIC filter, or `<irq> (unlabeled)` for a
nonzero unlabeled row. -/
def rowOffender (cpuColumn : Int) (nicFilter : List Char) (line : List Char) : Option (List Char) :=
  let l := line.dropWhile isSpaceB
  match l with
  | [] => none
  | c :: _ =>
    if isDigitB c = false then none
    else
      match findCharIdx ':' l with
      | none => none
      | some colon =>
        let irqNumber := l.take colon
        match scanRow cpuColumn (l.length + 1) (l.drop (colon + 1)) (-1) 0 with
        | (some label, value) =>
          if 0 < value ∧ containsSub label nicFilter = false then
            some (irqNumber ++ " ".data ++ trimL label)
          else none
        | (none, value) =>
          if 0 < value then some (irqNumber ++ " (unlabeled)".data) else none

/-- Line loop of `NoUnrelatedIrqsOnRtCheck` (config.cpp lines 585-631), as a
fold with state (header seen?, RT core's column index, offender entries so
far).  Before the header line (the first nonempty line containing `CPU0`)
every line is skipped. -/
def irqScanStep (cpu : Int) (nicFilter : List Char) (st : Bool × Int × List (List Char)) (line : List Char) :
    Bool × Int × List (List Char) :=
  if line = [] then st
  else if st.1 = false then
    if containsSub line (CpuHeaderTag ++ "0".data) then (true, findCpuColumn cpu (splitWs line), st.2.2)
    else st
  else
    match rowOffender st.2.1 nicFilter line with
    | none => st
    | some entry => (st.1, st.2.1, st.2.2 ++ [entry])

/-- The whole `/proc/interrupts` scan, from the source's initial state. -/
def noUnrelatedScan (cpu : Int) (nicFilter : List Char) (lines : List (List Char)) :
    Bool × Int × List (List Char) :=
  lines.foldl (irqScanStep cpu nicFilter) (false, -1, [])

/-- Offender rendering (config.cpp lines 634-635): the first `MaxIrqsToShow`
entries joined by `", "`, plus a `+K more` suffix when more were found. -/
def offenderSummary (offenders : List (List Char)) : String :=
  let joined := String.mk (List.intercalate ", ".data (offenders.take MaxIrqsToShow))
  if MaxIrqsToShow < offenders.length then
    joined ++ ", +" ++ toString (offenders.length - MaxIrqsToShow) ++ " more"
  else joined

/-- Model of `NoUnrelatedIrqsOnRtCheck::Evaluate` from config.cpp lines 574-637. -/
def NoUnrelatedIrqsOnRtCheck.Evaluate (checkContext : CheckContext) (dataSource : IDataSource) : CheckResult :=
  match checkContext.cpu with
  | none => ⟨CheckKind.NoUnrelatedIrqsOnRt, Status.Unknown, "No unrelated IRQs on RT core", "no CPU subject"⟩
  | some cpu =>
    match dataSource.Read "/proc/interrupts" with
    | none => ⟨CheckKind.NoUnrelatedIrqsOnRt, Status.Unknown, "No unrelated IRQs on RT core", "cannot read /proc/interrupts"⟩
    | some content =>
      let nicFilter := (checkContext.nic.getD "").data
      let st := noUnrelatedScan cpu nicFilter (getLines content.data)
      if st.2.1 < 0 then
        ⟨CheckKind.NoUnrelatedIrqsOnRt, Status.Unknown, "No unrelated IRQs on RT core", "could not map CPU column"⟩
      else if st.2.2 = [] then
        ⟨CheckKind.NoUnrelatedIrqsOnRt, Status.Pass, "No unrelated IRQs on RT core", "clean"⟩
      else
        ⟨CheckKind.NoUnrelatedIrqsOnRt, Status.Fail, "No unrelated IRQs on RT core", offenderSummary st.2.2⟩

/-- IRQ-number collection of `NicIrqsPinnedCheck` (config.cpp lines 661-668):
rows mentioning the NIC that, after indentation, start with a digit and
contain a colon contribute their parsed IRQ number (parse failures are
skipped). -/
def collectNicIrqs (nic : List Char) (lines : List (List Char)) : List Int :=
  lines.foldr (fun line acc =>
    if containsSub line nic = false then acc
    else
      let l := line.dropWhile isSpaceB
      match l with
      | [] => acc
      | c :: _ =>
        if isDigitB c = false then acc
        else
          match findCharIdx ':' l with
          | none => acc
          | some colon =>
            match stoiOpt (l.take colon) with
            | none => acc
            | some irq => irq :: acc) []

/-- Affinity-verification loop of `NicIrqsPinnedCheck` (config.cpp lines
670-677): the first unreadable `smp_affinity_list` aborts the check (inl that
IRQ); otherwise the IRQs whose parsed set is not exactly the RT core are
collected in order (inr). -/
def pinnedScan (dataSource : IDataSource) (cpu : Int) : List Int → Sum Int (List Int)
  | [] => Sum.inr []
  | irq :: rest =>
    match dataSource.Read ("/proc/irq/" ++ toString irq ++ "/smp_affinity_list") with
    | none => Sum.inl irq
    | some value =>
      let set := ParseCpuList value
      match pinnedScan dataSource cpu rest with
      | Sum.inl bad => Sum.inl bad
      | Sum.inr badIrqs =>
        if set.card = 1 ∧ cpu ∈ set then Sum.inr badIrqs else Sum.inr (irq :: badIrqs)

/-- Model of `NicIrqsPinnedCheck::Evaluate` from config.cpp lines 647-681. -/
def NicIrqsPinnedCheck.Evaluate (checkContext : CheckContext) (dataSource : IDataSource) : CheckResult :=
  match checkContext.cpu with
  | none => ⟨CheckKind.NicIrqsPinned, Status.Unknown, "NIC IRQs pinned to RT core", "no CPU subject"⟩
  | some cpu =>
    match checkContext.nic with
    | none => ⟨CheckKind.NicIrqsPinned, Status.Unknown, "NIC IRQs pinned to RT core", "no NIC in context"⟩
    | some nic =>
      if NicExists dataSource nic = false then
        ⟨CheckKind.NicIrqsPinned, Status.Unknown, "NIC IRQs pinned to RT core", "NIC not found"⟩
      else
        match dataSource.Read "/proc/interrupts" with
        | none => ⟨CheckKind.NicIrqsPinned, Status.Unknown, "NIC IRQs pinned to RT core", "cannot read /proc/interrupts"⟩
        | some content =>
          let nicIrqs := collectNicIrqs nic.data (getLines content.data)
          if nicIrqs = [] then
            ⟨CheckKind.NicIrqsPinned, Status.Unknown, "NIC IRQs pinned to RT core", "no NIC IRQs seen"⟩
          else
            match pinnedScan dataSource cpu nicIrqs with
            | Sum.inl irq =>
              ⟨CheckKind.NicIrqsPinned, Status.Unknown, "NIC IRQs pinned to RT core",
                "cannot read smp_affinity_list for IRQ " ++ toString irq⟩
            | Sum.inr badIrqs =>
              if badIrqs = [] then
                ⟨CheckKind.NicIrqsPinned, Status.Pass, "NIC IRQs pinned to RT core", "all pinned to CPU" ++ toString cpu⟩
              else
                ⟨CheckKind.NicIrqsPinned, Status.Fail, "NIC IRQs pinned to RT core",
                  "not pinned: " ++ String.mk (List.intercalate ",".data (badIrqs.map (fun i => (toString i).data)))⟩

/-- The all-zero-mask test of `RpsDisabledCheck` (config.cpp lines 701-709):
empty after trimming counts as zero; otherwise every character other than
commas and whitespace must be `0`. -/
def allZeroMask (value : String) : Bool :=
  let v := trimL value.data
  if v = [] then true
  else v.all (fun c => c = ',' || c = '\n' || c = ' ' || c = '\t' || c = '0')

/-- Queue-directory walk of `RpsDisabledCheck` (config.cpp lines 710-722);
directory entries come from the environment as (name, is_directory) pairs.
The first `rx-*` queue with an unreadable `rps_cpus` aborts the check (inl
its path); otherwise inr (any nonzero mask?, number of queues checked). -/
def rpsScan (dataSource : IDataSource) (nic : String) : List (String × Bool) → Sum String (Bool × Nat)
  | [] => Sum.inr (false, 0)
  | entry :: rest =>
    if entry.2 = false then rpsScan dataSource nic rest
    else if hasPfx "rx-".data entry.1.data = false then rpsScan dataSource nic rest
    else
      let path := "/sys/class/net/" ++ nic ++ "/queues/" ++ entry.1 ++ "/rps_cpus"
      match dataSource.Read path with
      | none => Sum.inl path
      | some content =>
        match rpsScan dataSource nic rest with
        | Sum.inl p => Sum.inl p
        | Sum.inr st => Sum.inr (st.1 || !allZeroMask content, st.2 + 1)

/-- Model of `RpsDisabledCheck::Evaluate` from config.cpp lines 691-726. -/
def RpsDisabledCheck.Evaluate (checkContext : CheckContext) (dataSource : IDataSource) (env : SysEnv) : CheckResult :=
  match checkContext.nic with
  | none => ⟨CheckKind.RpsDisabled, Status.Unknown, "RPS disabled on NIC", "no NIC in context"⟩
  | some nic =>
    if NicExists dataSource nic = false then
      ⟨CheckKind.RpsDisabled, Status.Unknown, "RPS disabled on NIC", "NIC not found"⟩
    else if env.queuesDirOk = false then
      ⟨CheckKind.RpsDisabled, Status.Unknown, "RPS disabled on NIC", "no queues dir"⟩
    else
      match rpsScan dataSource nic env.queueEntries with
      | Sum.inl path => ⟨CheckKind.RpsDisabled, Status.Unknown, "RPS disabled on NIC", "cannot read " ++ path⟩
      | Sum.inr st =>
        if st.2 = 0 then ⟨CheckKind.RpsDisabled, Status.Unknown, "RPS disabled on NIC", "no rx/tx queues found"⟩
        else if st.1 = false then ⟨CheckKind.RpsDisabled, Status.Pass, "RPS disabled on NIC", "all zero masks"⟩
        else ⟨CheckKind.RpsDisabled, Status.Fail, "RPS disabled on NIC", "non-zero masks present"⟩

/-- Model of `NicQuietCheck::default_route_v4_via_nic` from config.cpp lines 736-753:
after the header line, some row names the NIC with destination
`00000000`. -/
def defaultRouteV4ViaNic (dataSource : IDataSource) (nic : String) : Bool :=
  match dataSource.Read "/proc/net/route" with
  | none => false
  | some content =>
    match getLines content.data with
    | [] => false
    | _ :: rows =>
      rows.any fun line =>
        if line = [] then false
        else
          match splitWs line with
          | iface :: dest :: _ => iface = nic.data && dest = "00000000".data
          | _ => false

/-- Model of `NicQuietCheck::default_route_v6_via_nic` from config.cpp lines 755-776:
some row with at least 10 tokens has an all-zero destination, prefix length
0, and the NIC as its last token. -/
def defaultRouteV6ViaNic (dataSource : IDataSource) (nic : String) : Bool :=
  match dataSource.Read "/proc/net/ipv6_route" with
  | none => false
  | some content =>
    (getLines content.data).any fun line =>
      if line = [] then false
      else
        let tokens := splitWs line
        if tokens.length < 10 then false
        else
          match tokens, tokens.getLast? with
          | dest :: prefixLen :: _, some device =>
            dest = List.replicate 32 '0' &&
            (prefixLen = "0".data || prefixLen = "00000000".data) &&
            device = nic.data
          | _, _ => false

/-- Address counting of `NicQuietCheck` (config.cpp lines 792-798): the
number of getifaddrs entries for the NIC with the given family. -/
def countFamily (env : SysEnv) (nic : String) (family : AddrFamily) : Nat :=
  (env.ifaddrs.filter (fun e => e.1 = nic ∧ e.2 = family)).length

/-- Model of `NicQuietCheck::Evaluate` from config.cpp lines 778-812. -/
def NicQuietCheck.Evaluate (checkContext : CheckContext) (dataSource : IDataSource) (env : SysEnv) : CheckResult :=
  match checkContext.nic with
  | none => ⟨CheckKind.NicQuiet, Status.Unknown, "NIC is quiet", "no NIC in context"⟩
  | some nic =>
    if NicExists dataSource nic = false then
      ⟨CheckKind.NicQuiet, Status.Unknown, "NIC is quiet", "NIC not found"⟩
    else
      let addrKnown := env.ifaddrsOk
      let ipv4Count := if env.ifaddrsOk then countFamily env nic AddrFamily.v4 else 0
      let ipv6Count := if env.ifaddrsOk then countFamily env nic AddrFamily.v6 else 0
      let hasDefaultV4 := defaultRouteV4ViaNic dataSource nic
      let hasDefaultV6 := defaultRouteV6ViaNic dataSource nic
      if addrKnown = true ∧ ipv4Count = 0 ∧ ipv6Count = 0 ∧ hasDefaultV4 = false ∧ hasDefaultV6 = false then
        ⟨CheckKind.NicQuiet, Status.Pass, "NIC is quiet", "no IPs, no default route"⟩
      else
        let head :=
          if addrKnown = false then "addr=?"
          else "v4=" ++ toString ipv4Count ++ ", v6=" ++ toString ipv6Count
        let reason := head ++ ", def4=" ++ (if hasDefaultV4 then "yes" else "no") ++
                      ", def6=" ++ (if hasDefaultV6 then "yes" else "no")
        if addrKnown = false then ⟨CheckKind.NicQuiet, Status.Unknown, "NIC is quiet", reason⟩
        else ⟨CheckKind.NicQuiet, Status.Fail, "NIC is quiet", reason⟩

/-- Model of `RtThrottlingCheck::Evaluate` from config.cpp lines 822-829. -/
def RtThrottlingCheck.Evaluate (_ : CheckContext) (dataSource : IDataSource) : CheckResult :=
  match dataSource.Read "/proc/sys/kernel/sched_rt_runtime_us" with
  | none => ⟨CheckKind.RtThrottlingDisabled, Status.Unknown, "RT throttling disabled", "cannot read sched_rt_runtime_us"⟩
  | some value =>
    let trimmedValue := Trim value
    if trimmedValue = "-1" then
      ⟨CheckKind.RtThrottlingDisabled, Status.Pass, "RT throttling disabled", "sched_rt_runtime_us=-1"⟩
    else
      ⟨CheckKind.RtThrottlingDisabled, Status.Fail, "RT throttling disabled", "sched_rt_runtime_us=" ++ trimmedValue⟩

/-- Model of `TimerMigrationCheck::Evaluate` from config.cpp lines 839-846. -/
def TimerMigrationCheck.Evaluate (_ : CheckContext) (dataSource : IDataSource) : CheckResult :=
  match dataSource.Read "/proc/sys/kernel/timer_migration" with
  | none => ⟨CheckKind.TimerMigration, Status.Unknown, "Timer Migration disabled", "cannot read timer_migration"⟩
  | some value =>
    let trimmedValue := Trim value
    if trimmedValue = "0" then
      ⟨CheckKind.TimerMigration, Status.Pass, "Timer Migration disabled", "timer_migration=0"⟩
    else
      ⟨CheckKind.TimerMigration, Status.Fail, "Timer Migration disabled", "timer_migration=" ++ trimmedValue⟩

/-- Entry rendering of `SwapDisabledCheck` (config.cpp lines 866-885): each
nonempty line after the header contributes its first token, with
`size=`/`used=` details when at least four tokens are present. -/
def swapEntries (rows : List (List Char)) : List (List Char) :=
  rows.foldr (fun line acc =>
    let l := trimL line
    if l = [] then acc
    else
      match splitWs l with
      | [] => acc
      | first :: more =>
        let entry :=
          if 4 ≤ (first :: more).length then
            first ++ " size=".data ++ ((first :: more)[2]?.getD []) ++ " used=".data ++ ((first :: more)[3]?.getD [])
          else first
        entry :: acc) []

/-- Model of `SwapDisabledCheck::Evaluate` from config.cpp lines 856-899. -/
def SwapDisabledCheck.Evaluate (_ : CheckContext) (dataSource : IDataSource) : CheckResult :=
  match dataSource.Read "/proc/swaps" with
  | none => ⟨CheckKind.SwapDisabled, Status.Unknown, "Swap disabled", "cannot read /proc/swaps"⟩
  | some swaps =>
    match getLines swaps.data with
    | [] => ⟨CheckKind.SwapDisabled, Status.Unknown, "Swap disabled", "unexpected /proc/swaps format"⟩
    | _ :: rows =>
      let activeEntries := swapEntries rows
      if activeEntries = [] then ⟨CheckKind.SwapDisabled, Status.Pass, "Swap disabled", "/proc/swaps empty"⟩
      else
        ⟨CheckKind.SwapDisabled, Status.Fail, "Swap disabled",
          "active: " ++ String.mk (List.intercalate ", ".data activeEntries)⟩

/-- Model of `CStatesCappedCheck::Evaluate` from config.cpp lines 909-930. -/
def CStatesCappedCheck.Evaluate (_ : CheckContext) (dataSource : IDataSource) : CheckResult :=
  let cmdlineResult : Option CheckResult :=
    match dataSource.Read "/proc/cmdline" with
    | none => none
    | some cmdline =>
      if containsSub cmdline.data "cpuidle.off=1".data then
        some ⟨CheckKind.DeepCStatesCapped, Status.Pass, "Deep C-states capped", "cpuidle.off=1"⟩
      else if containsSub cmdline.data "intel_idle.max_cstate=1".data ||
              containsSub cmdline.data "processor.max_cstate=1".data then
        some ⟨CheckKind.DeepCStatesCapped, Status.Pass, "Deep C-states capped", "cmdline caps to C1"⟩
      else none
  match cmdlineResult with
  | some r => r
  | none =>
    match dataSource.Read "/sys/module/intel_idle/parameters/max_cstate" with
    | some intelCstate =>
      let value := Trim intelCstate
      if value = "1" || value = "0" then
        ⟨CheckKind.DeepCStatesCapped, Status.Pass, "Deep C-states capped", "intel_idle.max_cstate=" ++ value⟩
      else ⟨CheckKind.DeepCStatesCapped, Status.Fail, "Deep C-states capped", "intel_idle.max_cstate=" ++ value⟩
    | none =>
      match dataSource.Read "/sys/module/processor/parameters/max_cstate" with
      | some processorCstate =>
        let value := Trim processorCstate
        if value = "1" || value = "0" then
          ⟨CheckKind.DeepCStatesCapped, Status.Pass, "Deep C-states capped", "processor.max_cstate=" ++ value⟩
        else ⟨CheckKind.DeepCStatesCapped, Status.Fail, "Deep C-states capped", "processor.max_cstate=" ++ value⟩
      | none => ⟨CheckKind.DeepCStatesCapped, Status.Unknown, "Deep C-states capped", "no indicators"⟩

/-- Model of `TurboPolicyCheck::Evaluate` from config.cpp lines 940-955. -/
def TurboPolicyCheck.Evaluate (_ : CheckContext) (dataSource : IDataSource) : CheckResult :=
  let boostResult : Option CheckResult :=
    match dataSource.Read "/sys/devices/system/cpu/cpufreq/boost" with
    | none => none
    | some boostValue =>
      let value := Trim boostValue
      if value = "0" then some ⟨CheckKind.TurboBoostPolicy, Status.Pass, "Turbo/boost disabled", "cpufreq/boost=0"⟩
      else if value = "1" then some ⟨CheckKind.TurboBoostPolicy, Status.Fail, "Turbo/boost disabled", "cpufreq/boost=1"⟩
      else none
  match boostResult with
  | some r => r
  | none =>
    match dataSource.Read "/sys/devices/system/cpu/intel_pstate/no_turbo" with
    | some intelTurbo =>
      let value := Trim intelTurbo
      if value = "1" then ⟨CheckKind.TurboBoostPolicy, Status.Pass, "Turbo/boost disabled", "intel_pstate/no_turbo=1"⟩
      else if value = "0" then ⟨CheckKind.TurboBoostPolicy, Status.Fail, "Turbo/boost disabled", "intel_pstate/no_turbo=0"⟩
      else ⟨CheckKind.TurboBoostPolicy, Status.Unknown, "Turbo/boost disabled", "no boost knobs"⟩
    | none => ⟨CheckKind.TurboBoostPolicy, Status.Unknown, "Turbo/boost disabled", "no boost knobs"⟩

/-- Model of `ClocksourceCheck::Evaluate` from config.cpp lines 965-1003. -/
def ClocksourceCheck.Evaluate (_ : CheckContext) (dataSource : IDataSource) : CheckResult :=
  match dataSource.Read ("/sys/devices/system/clocksource/clocksource0/" ++ "current_clocksource") with
  | none => ⟨CheckKind.ClocksourceStable, Status.Unknown, "Clocksource stable", "cannot read current_clocksource"⟩
  | some currentSource =>
    let value := Trim currentSource
    if value = "tsc" then ⟨CheckKind.ClocksourceStable, Status.Pass, "Clocksource stable", "tsc"⟩
    else if value = "arch_sys_counter" then
      match dataSource.Read ("/sys/devices/system/clocksource/clocksource0/" ++ "available_clocksource") with
      | some available =>
        let availableSources := Trim available
        if availableSources = "arch_sys_counter" || containsSub availableSources.data " ".data = false then
          ⟨CheckKind.ClocksourceStable, Status.Pass, "Clocksource stable", "arch_sys_counter (ARM standard)"⟩
        else ⟨CheckKind.ClocksourceStable, Status.Pass, "Clocksource stable", "arch_sys_counter"⟩
      | none => ⟨CheckKind.ClocksourceStable, Status.Pass, "Clocksource stable", "arch_sys_counter"⟩
    else if value = "hpet" then ⟨CheckKind.ClocksourceStable, Status.Pass, "Clocksource stable", "hpet"⟩
    else
      let detail :=
        match dataSource.Read ("/sys/devices/system/clocksource/clocksource0/" ++ "available_clocksource") with
        | some available => value ++ "; available=" ++ Trim available
        | none => value
      if value = "jiffies" then ⟨CheckKind.ClocksourceStable, Status.Fail, "Clocksource stable", detail⟩
      else ⟨CheckKind.ClocksourceStable, Status.Unknown, "Clocksource stable", detail⟩

/-- Model of `SmtSiblingIsolatedCheck::Evaluate` from config.cpp lines 1013-1031.
`std::set` iterates in ascending order, so the first offender reported is the
smallest non-isolated sibling. -/
def SmtSiblingIsolatedCheck.Evaluate (checkContext : CheckContext) (dataSource : IDataSource) : CheckResult :=
  match checkContext.cpu with
  | none => ⟨CheckKind.SmtSiblingIsolated, Status.Unknown, "SMT sibling isolated/disabled", "no CPU subject"⟩
  | some cpu =>
    match dataSource.Read ("/sys/devices/system/cpu/cpu" ++ toString cpu ++ "/topology/thread_siblings_list") with
    | none => ⟨CheckKind.SmtSiblingIsolated, Status.Unknown, "SMT sibling isolated/disabled", "no thread_siblings_list"⟩
    | some siblingsValue =>
      let siblings := (ParseCpuList siblingsValue).erase cpu
      if siblings = ∅ then
        ⟨CheckKind.SmtSiblingIsolated, Status.Pass, "SMT sibling isolated/disabled", "no sibling"⟩
      else
        match dataSource.Read "/sys/devices/system/cpu/isolated" with
        | none => ⟨CheckKind.SmtSiblingIsolated, Status.Unknown, "SMT sibling isolated/disabled", "cannot read isolated"⟩
        | some isolatedValue =>
          let isolatedSet := ParseCpuList isolatedValue
          match (siblings.sort (· ≤ ·)).find? (fun sibling => !(decide (sibling ∈ isolatedSet))) with
          | some sibling =>
            ⟨CheckKind.SmtSiblingIsolated, Status.Fail, "SMT sibling isolated/disabled",
              "sibling CPU" ++ toString sibling ++ " not isolated"⟩
          | none => ⟨CheckKind.SmtSiblingIsolated, Status.Pass, "SMT sibling isolated/disabled", "siblings all isolated"⟩

/-- NIC-section dispatch of `ReportSystemConfiguration` (config.cpp lines
1243-1265): when a NIC is in the context, print the presence check, and
evaluate the dependent NIC checks — in source order LinkUp, Quiet,
IrqsPinned, Rps — only when presence reported Pass. -/
def nicSection (checkContext : CheckContext) (dataSource : IDataSource) (env : SysEnv) : List CheckResult :=
  match checkContext.nic with
  | none => []
  | some _ =>
    let presence := NicPresenceCheck.Evaluate checkContext dataSource
    if presence.status = Status.Pass then
      [presence,
       NicLinkUpCheck.Evaluate checkContext dataSource,
       NicQuietCheck.Evaluate checkContext dataSource env,
       NicIrqsPinnedCheck.Evaluate checkContext dataSource,
       RpsDisabledCheck.Evaluate checkContext dataSource env]
    else [presence]

/-! ## Lemmas about the timing primitives -/

theorem ToEpoch_AddNanoToTimespec_mod (t : Timespec) (n : Nat) :
    ToEpoch (AddNanoToTimespec t n) = (ToEpoch t + n) % UInt64Mod := by
  show (ToEpoch t + n) % UInt64Mod / NanoPerSec * NanoPerSec + (ToEpoch t + n) % UInt64Mod % NanoPerSec
      = (ToEpoch t + n) % UInt64Mod
  unfold NanoPerSec UInt64Mod
  omega

theorem ToEpoch_AddNanoToTimespec (t : Timespec) (n : Nat) (h : ToEpoch t + n < UInt64Mod) :
    ToEpoch (AddNanoToTimespec t n) = ToEpoch t + n := by
  rw [ToEpoch_AddNanoToTimespec_mod, Nat.mod_eq_of_lt h]

/-- Exit characterization of the catch-up loop: with enough fuel (and no
`uint64_t` wrap within the explored grid), the loop stops at the first grid
point `ToEpoch t + j * s` that is at least `current`, and every earlier grid
point is below `current`. -/
theorem catchUp_spec : ∀ (fuel : Nat) (t : Timespec) (s current : Nat),
    ToEpoch t + fuel * s < UInt64Mod →
    current ≤ ToEpoch t + fuel * s →
    ∃ j, j ≤ fuel ∧ ToEpoch (catchUp fuel t s current) = ToEpoch t + j * s ∧
      current ≤ ToEpoch t + j * s ∧ ∀ i < j, ToEpoch t + i * s < current := by
  intro fuel
  induction fuel with
  | zero =>
    intro t s current _ hcur
    refine ⟨0, le_refl 0, by simp [catchUp], by simpa using hcur, ?_⟩
    intro i hi
    omega
  | succ fuel ih =>
    intro t s current hwrap hcur
    have hexp : (fuel + 1) * s = fuel * s + s := add_one_mul fuel s
    rw [catchUp]
    by_cases hc : current > ToEpoch t
    · have hstep : ToEpoch (AddNanoToTimespec t s) = ToEpoch t + s :=
        ToEpoch_AddNanoToTimespec t s (by omega)
      obtain ⟨j, hj, hepoch, hcur', hmin⟩ :=
        ih (AddNanoToTimespec t s) s current (by omega) (by omega)
      have hjexp : (j + 1) * s = j * s + s := add_one_mul j s
      refine ⟨j + 1, by omega, ?_, by omega, ?_⟩
      · simp only [if_pos hc]
        omega
      · intro i hi
        cases i with
        | zero => simpa using hc
        | succ i' =>
          have hmini := hmin i' (by omega)
          have hiexp : (i' + 1) * s = i' * s + s := add_one_mul i' s
          omega
    · refine ⟨0, Nat.zero_le _, ?_, by omega, ?_⟩
      · simp only [if_neg hc]
        omega
      · intro i hi
        omega

/-- The catch-up loop never moves the deadline backwards while the `uint64_t`
epoch does not wrap. -/
theorem catchUp_le : ∀ (fuel : Nat) (t : Timespec) (s current : Nat),
    ToEpoch t + fuel * s < UInt64Mod →
    ToEpoch t ≤ ToEpoch (catchUp fuel t s current) := by
  intro fuel
  induction fuel with
  | zero => intro t s current _; simp [catchUp]
  | succ fuel ih =>
    intro t s current hwrap
    have hexp : (fuel + 1) * s = fuel * s + s := add_one_mul fuel s
    rw [catchUp]
    by_cases hc : current > ToEpoch t
    · simp only [if_pos hc]
      have hstep : ToEpoch (AddNanoToTimespec t s) = ToEpoch t + s :=
        ToEpoch_AddNanoToTimespec t s (by omega)
      have hrec := ih (AddNanoToTimespec t s) s current (by omega)
      omega
    · simp only [if_neg hc]; omega

/-! ## Claim theorems -/

/-- C1: after an iteration observes time `current`, the sender's next
deadline is obtained by advancing `next` once by `send_sleep_ns` and then
repeatedly while `current > next`, so (absent `uint64_t` wrap and with enough
fuel for the loop to have exited) the resulting deadline is the first grid
point `ToEpoch next + k * send_sleep_ns` (k ≥ 1) that is ≥ `current`: every
earlier grid point is strictly below `current`. -/
theorem c1_sender_catchup (next : Timespec) (sendSleep current fuel : Nat)
    (_hsleep : 0 < sendSleep)
    (hwrap : ToEpoch next + (fuel + 1) * sendSleep < UInt64Mod)
    (hfuel : current ≤ ToEpoch next + (fuel + 1) * sendSleep) :
    ∃ k, 1 ≤ k ∧ k ≤ fuel + 1 ∧
      ToEpoch (senderNextDeadline next sendSleep current fuel) = ToEpoch next + k * sendSleep ∧
      current ≤ ToEpoch next + k * sendSleep ∧
      ∀ i, 1 ≤ i → i < k → ToEpoch next + i * sendSleep < current := by
  have hexp : (fuel + 1) * sendSleep = fuel * sendSleep + sendSleep := add_one_mul fuel sendSleep
  have hstep : ToEpoch (AddNanoToTimespec next sendSleep) = ToEpoch next + sendSleep :=
    ToEpoch_AddNanoToTimespec next sendSleep (by omega)
  obtain ⟨j, hj, hepoch, hcur, hmin⟩ :=
    catchUp_spec fuel (AddNanoToTimespec next sendSleep) sendSleep current (by omega) (by omega)
  have hjexp : (j + 1) * sendSleep = j * sendSleep + sendSleep := add_one_mul j sendSleep
  refine ⟨j + 1, by omega, by omega, ?_, by omega, ?_⟩
  · show ToEpoch (catchUp fuel (AddNanoToTimespec next sendSleep) sendSleep current) = _
    omega
  · intro i h1 hik
    cases i with
    | zero => omega
    | succ i' =>
      have hmini := hmin i' (by omega)
      have hiexp : (i' + 1) * sendSleep = i' * sendSleep + sendSleep := add_one_mul i' sendSleep
      omega

/-- C1 witness: the spec's concrete scenario — `send_sleep = 1ms`, prior
deadline `next = 1ms`, wake at `current = 5.3ms` — satisfies the hypotheses,
and the resulting deadline evaluates to `6ms`, not `2ms`. -/
theorem c1_sender_catchup_witness :
    (0 < 1000000 ∧
     ToEpoch ⟨0, 1000000⟩ + (10 + 1) * 1000000 < UInt64Mod ∧
     5300000 ≤ ToEpoch ⟨0, 1000000⟩ + (10 + 1) * 1000000) ∧
    (∃ k, 1 ≤ k ∧ k ≤ 10 + 1 ∧
      ToEpoch (senderNextDeadline ⟨0, 1000000⟩ 1000000 5300000 10) = ToEpoch ⟨0, 1000000⟩ + k * 1000000 ∧
      5300000 ≤ ToEpoch ⟨0, 1000000⟩ + k * 1000000 ∧
      ∀ i, 1 ≤ i → i < k → ToEpoch ⟨0, 1000000⟩ + i * 1000000 < 5300000) ∧
    ToEpoch (senderNextDeadline ⟨0, 1000000⟩ 1000000 5300000 10) = 6000000 ∧
    ToEpoch (senderNextDeadline ⟨0, 1000000⟩ 1000000 5300000 10) ≠ 2000000 := by
  refine ⟨⟨by decide, by decide, by decide⟩, ?_, by decide, by decide⟩
  exact c1_sender_catchup ⟨0, 1000000⟩ 1000000 5300000 10 (by decide) (by decide) (by decide)

/-- C2: for a complete finite run of `iterations ≥ 2`, the sender records an
observation exactly at the indices in `1 .. iterations - 2`, so the sample
count is exactly `iterations - 2`. -/
theorem c2_first_last_exclusion (iterations : Nat) (h : 2 ≤ iterations) :
    senderSampleCount iterations = iterations - 2 ∧
    ∀ index < iterations, (recordTime index iterations = true ↔ 1 ≤ index ∧ index ≤ iterations - 2) := by
  obtain ⟨m, rfl⟩ : ∃ m, iterations = m + 2 := ⟨iterations - 2, by omega⟩
  constructor
  · show (List.filter _ (List.range (m + 2))).length = _
    rw [List.range_succ, List.filter_append]
    have hlast : List.filter (fun index => recordTime index (m + 2)) [m + 1] = [] := by
      simp [recordTime]
    rw [hlast, List.append_nil]
    have hcongr : List.filter (fun index => recordTime index (m + 2)) (List.range (m + 1))
        = List.filter (fun index => index != 0) (List.range (m + 1)) := by
      apply List.filter_congr
      intro a ha
      have : a < m + 1 := List.mem_range.mp ha
      simp [recordTime]
      omega
    rw [hcongr, List.range_succ_eq_map]
    have : List.filter (fun index => index != 0) (List.map Nat.succ (List.range m))
        = List.map Nat.succ (List.range m) := by
      apply List.filter_eq_self.mpr
      intro a ha
      obtain ⟨b, _, rfl⟩ := List.mem_map.mp ha
      simp
    simp [this]
  · intro index hidx
    simp only [recordTime, Bool.and_eq_true, bne_iff_ne, ne_eq]
    omega

/-- C2 witness: a five-iteration run records exactly three samples. -/
theorem c2_first_last_exclusion_witness :
    2 ≤ 5 ∧ senderSampleCount 5 = 5 - 2 := by
  exact ⟨by decide, (c2_first_last_exclusion 5 (by decide)).1⟩

/-- C9 counterexample: with `send_sleep_ns = 1 > 0`, the deadline update at a
timespec whose 64-bit nanosecond epoch is `2^64 - 1` wraps around and
strictly decreases the epoch, so the deadline is not monotonically
non-decreasing as stated. -/
theorem c9_monotone_deadline_counterexample :
    0 < 1 ∧
    ToEpoch (AddNanoToTimespec ⟨18446744073, 709551615⟩ 1) < ToEpoch ⟨18446744073, 709551615⟩ := by
  exact ⟨by decide, by decide⟩

/-- C9 amended: provided additionally that the 64-bit epoch addition does not
wrap (`ToEpoch next + (fuel + 1) * send_sleep_ns < 2^64` covers the single
advance and the whole catch-up loop), every deadline update inside the sender
loop — the single `AddNanoToTimespec` advance, including its
`tv_sec`/`tv_nsec` normalization, and the full per-iteration update — is
monotonically non-decreasing in the epoch. -/
theorem c9_monotone_deadline (next : Timespec) (sendSleep current fuel : Nat)
    (hsleep : 0 < sendSleep)
    (hwrap : ToEpoch next + (fuel + 1) * sendSleep < UInt64Mod) :
    ToEpoch next ≤ ToEpoch (AddNanoToTimespec next sendSleep) ∧
    ToEpoch next ≤ ToEpoch (senderNextDeadline next sendSleep current fuel) := by
  have hexp : (fuel + 1) * sendSleep = fuel * sendSleep + sendSleep := add_one_mul fuel sendSleep
  have hstep : ToEpoch (AddNanoToTimespec next sendSleep) = ToEpoch next + sendSleep :=
    ToEpoch_AddNanoToTimespec next sendSleep (by omega)
  have hloop : ToEpoch (AddNanoToTimespec next sendSleep)
      ≤ ToEpoch (catchUp fuel (AddNanoToTimespec next sendSleep) sendSleep current) :=
    catchUp_le fuel (AddNanoToTimespec next sendSleep) sendSleep current (by omega)
  constructor
  · omega
  · show ToEpoch next ≤ ToEpoch (catchUp fuel (AddNanoToTimespec next sendSleep) sendSleep current)
    omega

/-- C9 amended witness: a concrete non-wrapping update is monotone. -/
theorem c9_monotone_deadline_witness :
    (0 < 1000 ∧ ToEpoch ⟨5, 0⟩ + (3 + 1) * 1000 < UInt64Mod) ∧
    ToEpoch ⟨5, 0⟩ ≤ ToEpoch (AddNanoToTimespec ⟨5, 0⟩ 1000) ∧
    ToEpoch ⟨5, 0⟩ ≤ ToEpoch (senderNextDeadline ⟨5, 0⟩ 1000 42 3) := by
  exact ⟨⟨by decide, by decide⟩, c9_monotone_deadline ⟨5, 0⟩ 1000 42 3 (by decide) (by decide)⟩

/-- C3 counterexample: `"1-2-3"` is a token with extra dashes, which the
claim says is dropped without error (so the claimed reading yields the empty
set), but `ParseCpuList` parses it with `std::stoi` leniency — split at the
first dash, `stoi("1") = 1`, `stoi("2-3") = 2` — and yields `{1, 2}`. -/
theorem c3_parse_cpu_list_counterexample :
    ParseCpuList "1-2-3" = ({1, 2} : Finset Int) ∧
    ParseCpuListClaim "1-2-3" = (∅ : Finset Int) ∧
    ParseCpuList "1-2-3" ≠ ParseCpuListClaim "1-2-3" := by
  refine ⟨by decide, by decide, by decide⟩

/-- C3 amended: `ParseCpuList` splits on commas, trims whitespace around
tokens, and swaps the endpoints of a reversed range; tokens are parsed with
`std::stoi` leniency: a token whose leading characters (after optional sign)
form no integer is dropped, a token with a leading integer followed by other
characters parses as that integer, and a range splits at its first dash — so
`"1-2-3"` yields `{1, 2}` and `"2abc"` yields `{2}`.  The claim's quoted
examples all hold. -/
theorem c3_parse_cpu_list :
    ParseCpuList "1-3,5,7-8" = ({1, 2, 3, 5, 7, 8} : Finset Int) ∧
    ParseCpuList "5-3" = ({3, 4, 5} : Finset Int) ∧
    ParseCpuList "" = (∅ : Finset Int) ∧
    ParseCpuList "2,abc,4" = ({2, 4} : Finset Int) ∧
    ParseCpuList " 1 , 2 " = ({1, 2} : Finset Int) ∧
    ParseCpuList "1-2-3" = ({1, 2} : Finset Int) ∧
    ParseCpuList "2abc" = ({2} : Finset Int) := by
  refine ⟨by decide, by decide, by decide, by decide, by decide, by decide, by decide⟩

/-- C4 counterexample: the claim says CPU0 yields Fail with reason
"CPU0 selected; choose non-CPU0" regardless of the contents or readability of
the isolated file; but with the file unreadable the check returns Unknown,
and with CPU0 inside the isolated list the Fail carries a different
reason. -/
theorem c4_core_isolated_cpu0_counterexample :
    (CoreIsolatedCheck.Evaluate ⟨some 0, none⟩ emptySource).status = Status.Unknown ∧
    (CoreIsolatedCheck.Evaluate ⟨some 0, none⟩ emptySource).status ≠ Status.Fail ∧
    (CoreIsolatedCheck.Evaluate ⟨some 0, none⟩
        (mkSource [("/sys/devices/system/cpu/isolated", "0-2")] [])).reason
      ≠ "CPU0 selected; choose non-CPU0" := by
  refine ⟨by decide, by decide, by decide⟩

/-- C4 amended: when `/sys/devices/system/cpu/isolated` is readable, a
context with cpu subject 0 always yields Fail — with reason
"CPU0 selected; choose non-CPU0" when CPU0 is not in the parsed isolated
set, and "CPU0 is isolated but should not be your RT core" when it is; when
the file is not readable the check returns Unknown ("no /sys/.../isolated")
instead. -/
theorem c4_core_isolated_cpu0 (dataSource : IDataSource) (nicOpt : Option String) (s : String) :
    (dataSource.Read "/sys/devices/system/cpu/isolated" = none →
      CoreIsolatedCheck.Evaluate ⟨some 0, nicOpt⟩ dataSource
        = ⟨CheckKind.CoreIsolated, Status.Unknown, "RT core isolated", "no /sys/.../isolated"⟩) ∧
    (dataSource.Read "/sys/devices/system/cpu/isolated" = some s →
      (CoreIsolatedCheck.Evaluate ⟨some 0, nicOpt⟩ dataSource).status = Status.Fail ∧
      (CoreIsolatedCheck.Evaluate ⟨some 0, nicOpt⟩ dataSource).reason
        = (if (0 : Int) ∈ ParseCpuList (Trim s) then "CPU0 is isolated but should not be your RT core"
           else "CPU0 selected; choose non-CPU0")) := by
  constructor
  · intro h
    simp [CoreIsolatedCheck.Evaluate, h]
  · intro h
    by_cases h0 : (0 : Int) ∈ ParseCpuList (Trim s)
    · simp [CoreIsolatedCheck.Evaluate, h, h0]
    · simp [CoreIsolatedCheck.Evaluate, h, h0]

/-- C4 amended witness: a concrete source where the isolated list is
readable and does not contain CPU0. -/
theorem c4_core_isolated_cpu0_witness :
    (mkSource [("/sys/devices/system/cpu/isolated", "1-2")] []).Read "/sys/devices/system/cpu/isolated"
      = some "1-2" ∧
    (CoreIsolatedCheck.Evaluate ⟨some 0, none⟩
        (mkSource [("/sys/devices/system/cpu/isolated", "1-2")] [])).status = Status.Fail ∧
    (CoreIsolatedCheck.Evaluate ⟨some 0, none⟩
        (mkSource [("/sys/devices/system/cpu/isolated", "1-2")] [])).reason
      = (if (0 : Int) ∈ ParseCpuList (Trim "1-2") then "CPU0 is isolated but should not be your RT core"
         else "CPU0 selected; choose non-CPU0") := by
  refine ⟨by decide, ?_, ?_⟩
  · exact ((c4_core_isolated_cpu0 (mkSource [("/sys/devices/system/cpu/isolated", "1-2")] []) none "1-2").2
      (by decide)).1
  · exact ((c4_core_isolated_cpu0 (mkSource [("/sys/devices/system/cpu/isolated", "1-2")] []) none "1-2").2
      (by decide)).2

/-! ## Lemmas about the prefix/first-index string helpers (for C8) -/

theorem hasPfx_iff (p s : List Char) : hasPfx p s = true ↔ ∃ t, s = p ++ t := by
  induction p generalizing s with
  | nil =>
    simp [hasPfx]
  | cons c p ih =>
    cases s with
    | nil => simp [hasPfx]
    | cons x xs =>
      simp only [hasPfx, Bool.and_eq_true, decide_eq_true_eq, ih, List.cons_append,
        List.cons.injEq]
      constructor
      · rintro ⟨rfl, t, rfl⟩
        exact ⟨t, rfl, rfl⟩
      · rintro ⟨t, rfl, rfl⟩
        exact ⟨rfl, t, rfl⟩

theorem findCharIdx_none_iff (c : Char) (l : List Char) : findCharIdx c l = none ↔ c ∉ l := by
  induction l with
  | nil => simp [findCharIdx]
  | cons x xs ih =>
    simp only [findCharIdx]
    by_cases hx : x = c
    · subst hx
      simp
    · rw [if_neg hx]
      simp only [Option.map_eq_none', ih, List.mem_cons]
      constructor
      · intro h hmem
        rcases hmem with h1 | h2
        · exact hx h1.symm
        · exact h h2
      · intro h h2
        exact h (Or.inr h2)

theorem findCharIdx_some (c : Char) : ∀ (l : List Char) (e : Nat), findCharIdx c l = some e →
    e < l.length ∧ l.take e ++ c :: l.drop (e + 1) = l ∧ c ∉ l.take e := by
  intro l
  induction l with
  | nil => intro e h; simp [findCharIdx] at h
  | cons x xs ih =>
    intro e h
    simp only [findCharIdx] at h
    by_cases hx : x = c
    · rw [if_pos hx] at h
      injection h with he
      subst hx
      subst he
      simp
    · rw [if_neg hx] at h
      cases hfx : findCharIdx c xs with
      | none => rw [hfx] at h; simp at h
      | some e' =>
        rw [hfx] at h
        simp only [Option.map_some', Option.some.injEq] at h
        obtain ⟨h1, h2, h3⟩ := ih e' hfx
        subst h
        refine ⟨by simpa using Nat.succ_lt_succ h1, ?_, ?_⟩
        · simpa using h2
        · simp only [List.take_succ_cons, List.mem_cons, not_or]
          exact ⟨fun hcx => hx hcx.symm, h3⟩

theorem findCharIdx_append (c : Char) (p r : List Char) (hp : c ∉ p) :
    findCharIdx c (p ++ c :: r) = some p.length := by
  induction p with
  | nil => simp [findCharIdx]
  | cons x xs ih =>
    have hx : x ≠ c := fun h => hp (h ▸ List.mem_cons_self x xs)
    have ih' := ih (fun h => hp (List.mem_cons_of_mem x h))
    simp only [List.cons_append, findCharIdx, if_neg hx, List.append_eq, ih',
      Option.map_some', List.length_cons]

theorem take_len_append (p t : List Char) : (p ++ t).take p.length = p := by
  induction p with
  | nil => simp
  | cons x xs ih => simp [ih]

/-- The token-level equivalence behind C8: when the key contains no `=`, the
source's scan (split at the token's first `=`) agrees with the claim's scan
(`tok = key`, then `key=` prefix). -/
theorem cmdScan_eq_claim (key : List Char) (hkey : '=' ∉ key) :
    ∀ toks, cmdScan key toks = cmdScanClaim key toks := by
  intro toks
  induction toks with
  | nil => rfl
  | cons tok rest ih =>
    cases hfind : findCharIdx '=' tok with
    | none =>
      simp only [cmdScan, cmdScanClaim, hfind]
      have hnotin : '=' ∉ tok := (findCharIdx_none_iff '=' tok).mp hfind
      by_cases heq : tok = key
      · subst heq
        simp
      · rw [if_neg heq, if_neg heq]
        have hpf : hasPfx (key ++ ['=']) tok = false := by
          apply Bool.eq_false_iff.mpr
          intro hp
          obtain ⟨t, ht⟩ := (hasPfx_iff _ _).mp hp
          apply hnotin
          rw [ht]
          simp
        rw [hpf]
        simpa using ih
    | some e =>
      simp only [cmdScan, cmdScanClaim, hfind]
      obtain ⟨hlen, hdecomp, hnotpre⟩ := findCharIdx_some '=' tok e hfind
      have htokne : tok ≠ key := by
        intro hk
        apply hkey
        rw [← hk, ← hdecomp]
        exact List.mem_append.mpr (Or.inr (List.mem_cons_self _ _))
      by_cases hpre : tok.take e = key
      · rw [if_pos hpre, if_neg htokne]
        have he : e = key.length := by
          have hc := congrArg List.length hpre
          simp only [List.length_take] at hc
          omega
        have hp : hasPfx (key ++ ['=']) tok = true := by
          apply (hasPfx_iff _ _).mpr
          refine ⟨tok.drop (e + 1), ?_⟩
          conv_lhs => rw [← hdecomp]
          rw [hpre]
          simp
        rw [hp, he]
        simp
      · rw [if_neg hpre, if_neg htokne]
        have hp : hasPfx (key ++ ['=']) tok = false := by
          apply Bool.eq_false_iff.mpr
          intro hptrue
          obtain ⟨t, ht⟩ := (hasPfx_iff _ _).mp hptrue
          have hidx : findCharIdx '=' tok = some key.length := by
            rw [ht]
            simpa using findCharIdx_append '=' key t hkey
          rw [hfind] at hidx
          injection hidx with he
          apply hpre
          rw [ht, he, List.append_assoc]
          exact take_len_append key ('=' :: t)
        rw [hp]
        simp [ih]

/-- C8 counterexample: for the key `"a=b"` (a key containing `=`) on cmdline
`"a=b=c"`, the claim's contract returns the suffix `"c"` (the token starts
with `key=`), but the code compares the key against the part of the token
before its first `=` and finds no match, returning none. -/
theorem c8_cmdline_param_counterexample :
    GetCmdLineParam (some "a=b=c") "a=b" = none ∧
    GetCmdLineParamClaim (some "a=b=c") "a=b" = some "c" ∧
    GetCmdLineParam (some "a=b=c") "a=b" ≠ GetCmdLineParamClaim (some "a=b=c") "a=b" := by
  refine ⟨by decide, by decide, by decide⟩

/-- C8 amended: for every key that does not contain `=`, `GetCmdLineParam`
behaves exactly as the claim states — tokenize on whitespace, scan in order,
empty string for the first token equal to the key, suffix after `=` for the
first token starting with `key=`, none when no token matches (and none when
the cmdline itself is unreadable). -/
theorem c8_cmdline_param (cmdline key : String) (hkey : '=' ∉ key.data) :
    GetCmdLineParam (some cmdline) key = GetCmdLineParamClaim (some cmdline) key ∧
    GetCmdLineParam none key = none := by
  constructor
  · show (cmdScan key.data (splitWs cmdline.data)).map String.mk
        = (cmdScanClaim key.data (splitWs cmdline.data)).map String.mk
    rw [cmdScan_eq_claim key.data hkey]
  · rfl

/-- C8 amended witness: the claim's three examples, for the `=`-free key
`"foo"`. -/
theorem c8_cmdline_param_witness :
    ('=' ∉ "foo".data) ∧
    GetCmdLineParam (some "a foo=bar baz") "foo" = GetCmdLineParamClaim (some "a foo=bar baz") "foo" ∧
    GetCmdLineParam (some "a foo=bar baz") "foo" = some "bar" ∧
    GetCmdLineParam (some "a foo baz") "foo" = some "" ∧
    GetCmdLineParam (some "a bar") "foo" = none := by
  refine ⟨by decide, (c8_cmdline_param "a foo=bar baz" "foo" (by decide)).1, by decide, by decide, by decide⟩

/-- C5 counterexample: with a usable `uname` on a non-RT kernel and no
readable file evidence at all, `PreemptRTActiveCheck` does not return
Unknown: it falls through to Fail ("No evidence of RT kernel"), so missing
file evidence yields Fail for this catalog check. -/
theorem c5_unknown_on_missing_evidence_counterexample :
    (PreemptRTActiveCheck.Evaluate ⟨none, none⟩ emptySource plainEnv).status = Status.Fail ∧
    (PreemptRTActiveCheck.Evaluate ⟨none, none⟩ emptySource plainEnv).reason = "No evidence of RT kernel" ∧
    Status.Fail ≠ Status.Unknown := by
  refine ⟨by decide, by decide, by decide⟩

/-- C5 amended: for every check in the catalog except PreemptRTActive, a
missing required subject (cpu or nic absent from the context) or completely
unreadable file evidence yields a CheckResult with status Unknown; the
exception is PreemptRTActiveCheck, which — when the uname version lacks the
PREEMPT-RT markers — treats completely missing evidence as Fail
("No evidence of RT kernel"). -/
theorem c5_unknown_on_missing_evidence (dataSource : IDataSource) (env : SysEnv)
    (cpuOpt : Option Int) (nicOpt : Option String) (c : Int) (n : String)
    (h1 : containsSub env.unameVersion.data "PREEMPT RT".data = false)
    (h2 : containsSub env.unameVersion.data "PREEMPT_RT".data = false) :
    (PreemptRTActiveCheck.Evaluate ⟨cpuOpt, nicOpt⟩ emptySource env).status = Status.Fail ∧
    (CoreIsolatedCheck.Evaluate ⟨none, nicOpt⟩ dataSource).status = Status.Unknown ∧
    (NohzFullCheck.Evaluate ⟨none, nicOpt⟩ dataSource).status = Status.Unknown ∧
    (RcuNoCbsCheck.Evaluate ⟨none, nicOpt⟩ dataSource).status = Status.Unknown ∧
    (CpuGovernorCheck.Evaluate ⟨none, nicOpt⟩ dataSource).status = Status.Unknown ∧
    (CpuFrequencyCheck.Evaluate ⟨none, nicOpt⟩ dataSource).status = Status.Unknown ∧
    (IrqAffinityDefaultAvoidsRtCheck.Evaluate ⟨none, nicOpt⟩ dataSource).status = Status.Unknown ∧
    (NoUnrelatedIrqsOnRtCheck.Evaluate ⟨none, nicOpt⟩ dataSource).status = Status.Unknown ∧
    (SmtSiblingIsolatedCheck.Evaluate ⟨none, nicOpt⟩ dataSource).status = Status.Unknown ∧
    (NicIrqsPinnedCheck.Evaluate ⟨none, nicOpt⟩ dataSource).status = Status.Unknown ∧
    (NicPresenceCheck.Evaluate ⟨cpuOpt, none⟩ dataSource).status = Status.Unknown ∧
    (NicLinkUpCheck.Evaluate ⟨cpuOpt, none⟩ dataSource).status = Status.Unknown ∧
    (NicQuietCheck.Evaluate ⟨cpuOpt, none⟩ dataSource env).status = Status.Unknown ∧
    (RpsDisabledCheck.Evaluate ⟨cpuOpt, none⟩ dataSource env).status = Status.Unknown ∧
    (NicIrqsPinnedCheck.Evaluate ⟨some c, none⟩ dataSource).status = Status.Unknown ∧
    (SwapDisabledCheck.Evaluate ⟨cpuOpt, nicOpt⟩ emptySource).status = Status.Unknown ∧
    (TimerMigrationCheck.Evaluate ⟨cpuOpt, nicOpt⟩ emptySource).status = Status.Unknown ∧
    (RtThrottlingCheck.Evaluate ⟨cpuOpt, nicOpt⟩ emptySource).status = Status.Unknown ∧
    (ClocksourceCheck.Evaluate ⟨cpuOpt, nicOpt⟩ emptySource).status = Status.Unknown ∧
    (CStatesCappedCheck.Evaluate ⟨cpuOpt, nicOpt⟩ emptySource).status = Status.Unknown ∧
    (TurboPolicyCheck.Evaluate ⟨cpuOpt, nicOpt⟩ emptySource).status = Status.Unknown ∧
    (CoreIsolatedCheck.Evaluate ⟨some c, nicOpt⟩ emptySource).status = Status.Unknown ∧
    (NohzFullCheck.Evaluate ⟨some c, nicOpt⟩ emptySource).status = Status.Unknown ∧
    (RcuNoCbsCheck.Evaluate ⟨some c, nicOpt⟩ emptySource).status = Status.Unknown ∧
    (CpuGovernorCheck.Evaluate ⟨some c, nicOpt⟩ emptySource).status = Status.Unknown ∧
    (CpuFrequencyCheck.Evaluate ⟨some c, nicOpt⟩ emptySource).status = Status.Unknown ∧
    (IrqAffinityDefaultAvoidsRtCheck.Evaluate ⟨some c, nicOpt⟩ emptySource).status = Status.Unknown ∧
    (NoUnrelatedIrqsOnRtCheck.Evaluate ⟨some c, nicOpt⟩ emptySource).status = Status.Unknown ∧
    (SmtSiblingIsolatedCheck.Evaluate ⟨some c, nicOpt⟩ emptySource).status = Status.Unknown ∧
    (NicPresenceCheck.Evaluate ⟨cpuOpt, some n⟩ emptySource).status = Status.Unknown ∧
    (NicLinkUpCheck.Evaluate ⟨cpuOpt, some n⟩ emptySource).status = Status.Unknown ∧
    (NicQuietCheck.Evaluate ⟨cpuOpt, some n⟩ emptySource env).status = Status.Unknown ∧
    (NicIrqsPinnedCheck.Evaluate ⟨some c, some n⟩ emptySource).status = Status.Unknown ∧
    (RpsDisabledCheck.Evaluate ⟨cpuOpt, some n⟩ emptySource env).status = Status.Unknown := by
  refine ⟨?_, rfl, rfl, rfl, rfl, rfl, rfl, rfl, rfl, rfl, rfl, rfl, rfl, rfl, rfl, rfl, rfl,
    rfl, rfl, rfl, rfl, rfl, rfl, rfl, rfl, rfl, rfl, rfl, rfl, rfl, rfl, rfl, rfl, rfl⟩
  cases henv : env.unameOk with
  | false => simp [PreemptRTActiveCheck.Evaluate, emptySource, henv]
  | true => simp [PreemptRTActiveCheck.Evaluate, emptySource, henv, h1, h2]

/-- C5 amended witness: concrete instantiation — the non-RT environment and
the empty source. -/
theorem c5_unknown_on_missing_evidence_witness :
    (containsSub plainEnv.unameVersion.data "PREEMPT RT".data = false ∧
     containsSub plainEnv.unameVersion.data "PREEMPT_RT".data = false) ∧
    (PreemptRTActiveCheck.Evaluate ⟨some 3, some "eth0"⟩ emptySource plainEnv).status = Status.Fail ∧
    (CoreIsolatedCheck.Evaluate ⟨none, some "eth0"⟩ emptySource).status = Status.Unknown := by
  have h := c5_unknown_on_missing_evidence emptySource plainEnv (some 3) (some "eth0") 3 "eth0"
    (by decide) (by decide)
  exact ⟨⟨by decide, by decide⟩, h.1, h.2.1⟩

/-- The bridge between the source tolerance `(max * 5) / 100` (C++ truncating
division) and the claim's exact `5% * max`: for a nonnegative max they accept
exactly the same integer drifts. -/
theorem tolerance_equiv (d m : Int) (hm : 0 ≤ m) :
    (d ≤ Int.tdiv (m * 5) 100 ↔ 100 * d ≤ 5 * m) := by
  rw [Int.tdiv_eq_ediv (by positivity) (by norm_num)]
  omega

/-- C6 counterexample: with `scaling_cur_freq = scaling_min_freq =
scaling_max_freq = -10` all three parse as integers and min = max, and the
exact-5% tolerance of the claim is negative — `100·|cur−max| ≤ 5·max` fails —
so the claim demands Fail; the code's truncating division makes the tolerance
0 and the check returns Pass. -/
theorem c6_cpu_frequency_counterexample :
    (CpuFrequencyCheck.Evaluate ⟨some 3, none⟩ (mkSource
        [("/sys/devices/system/cpu/cpu3/cpufreq/scaling_cur_freq", "-10"),
         ("/sys/devices/system/cpu/cpu3/cpufreq/scaling_min_freq", "-10"),
         ("/sys/devices/system/cpu/cpu3/cpufreq/scaling_max_freq", "-10")] [])).status = Status.Pass ∧
    ¬ (100 * |(-10 : Int) - (-10 : Int)| ≤ 5 * (-10 : Int)) := by
  refine ⟨by decide, by decide⟩

/-- C6 amended: when all three frequency files parse as integers, the check
passes exactly when `min = max` and `|cur − max|` is within the tolerance
`(max * 5) / 100` computed with C++ truncating integer division, and fails
otherwise; for nonnegative max this tolerance condition coincides with the
claim's `|cur − max| ≤ 5% · max`.  When only some of the three parse, the
check returns Unknown. -/
theorem c6_cpu_frequency (dataSource : IDataSource) (nicOpt : Option String) (cpu cur mn mx : Int) :
    (read_int64 dataSource ("/sys/devices/system/cpu/cpu" ++ toString cpu ++ "/cpufreq/" ++ "scaling_cur_freq") = some cur →
     read_int64 dataSource ("/sys/devices/system/cpu/cpu" ++ toString cpu ++ "/cpufreq/" ++ "scaling_min_freq") = some mn →
     read_int64 dataSource ("/sys/devices/system/cpu/cpu" ++ toString cpu ++ "/cpufreq/" ++ "scaling_max_freq") = some mx →
      ((CpuFrequencyCheck.Evaluate ⟨some cpu, nicOpt⟩ dataSource).status
        = (if mn = mx ∧ |cur - mx| ≤ Int.tdiv (mx * 5) 100 then Status.Pass else Status.Fail)) ∧
      (0 ≤ mx →
        ((CpuFrequencyCheck.Evaluate ⟨some cpu, nicOpt⟩ dataSource).status = Status.Pass
          ↔ (mn = mx ∧ 100 * |cur - mx| ≤ 5 * mx)))) ∧
    (((read_int64 dataSource ("/sys/devices/system/cpu/cpu" ++ toString cpu ++ "/cpufreq/" ++ "scaling_cur_freq")).isSome ∨
      (read_int64 dataSource ("/sys/devices/system/cpu/cpu" ++ toString cpu ++ "/cpufreq/" ++ "scaling_min_freq")).isSome ∨
      (read_int64 dataSource ("/sys/devices/system/cpu/cpu" ++ toString cpu ++ "/cpufreq/" ++ "scaling_max_freq")).isSome) →
     ¬((read_int64 dataSource ("/sys/devices/system/cpu/cpu" ++ toString cpu ++ "/cpufreq/" ++ "scaling_cur_freq")).isSome ∧
       (read_int64 dataSource ("/sys/devices/system/cpu/cpu" ++ toString cpu ++ "/cpufreq/" ++ "scaling_min_freq")).isSome ∧
       (read_int64 dataSource ("/sys/devices/system/cpu/cpu" ++ toString cpu ++ "/cpufreq/" ++ "scaling_max_freq")).isSome) →
     (CpuFrequencyCheck.Evaluate ⟨some cpu, nicOpt⟩ dataSource).status = Status.Unknown) := by
  constructor
  · intro hcur hmn hmx
    have hstatus : (CpuFrequencyCheck.Evaluate ⟨some cpu, nicOpt⟩ dataSource).status
        = (if mn = mx ∧ |cur - mx| ≤ Int.tdiv (mx * 5) 100 then Status.Pass else Status.Fail) := by
      by_cases heq : mn = mx
      · by_cases htol : |cur - mx| ≤ Int.tdiv (mx * 5) 100
        · simp [CpuFrequencyCheck.Evaluate, hcur, hmn, hmx, heq, htol]
        · simp [CpuFrequencyCheck.Evaluate, hcur, hmn, hmx, heq, htol]
      · simp [CpuFrequencyCheck.Evaluate, hcur, hmn, hmx, heq]
    refine ⟨hstatus, ?_⟩
    intro hmx0
    rw [hstatus]
    by_cases hcond : mn = mx ∧ |cur - mx| ≤ Int.tdiv (mx * 5) 100
    · simp only [if_pos hcond]
      simp only [true_iff]
      exact ⟨hcond.1, (tolerance_equiv _ _ hmx0).mp hcond.2⟩
    · simp only [if_neg hcond]
      constructor
      · intro h; exact absurd h (by simp)
      · intro h
        exact absurd ⟨h.1, (tolerance_equiv _ _ hmx0).mpr h.2⟩ hcond
  · intro hsome hnotall
    rcases h1 : read_int64 dataSource ("/sys/devices/system/cpu/cpu" ++ toString cpu ++ "/cpufreq/" ++ "scaling_cur_freq") with _ | v1 <;>
    rcases h2 : read_int64 dataSource ("/sys/devices/system/cpu/cpu" ++ toString cpu ++ "/cpufreq/" ++ "scaling_min_freq") with _ | v2 <;>
    rcases h3 : read_int64 dataSource ("/sys/devices/system/cpu/cpu" ++ toString cpu ++ "/cpufreq/" ++ "scaling_max_freq") with _ | v3 <;>
      rw [h1, h2, h3] at hsome hnotall <;>
      simp only [Option.isSome_none, Option.isSome_some] at hsome hnotall <;>
      first
      | (exfalso; revert hsome hnotall; tauto)
      | simp [CpuFrequencyCheck.Evaluate, h1, h2, h3]

/-- C6 amended witness: the spec's Scenario C — min = max = 2400000 and
cur = 2600000; the drift 200000 exceeds the tolerance 120000, so the status
is Fail, consistent with the exact-5% reading since max ≥ 0. -/
theorem c6_cpu_frequency_witness :
    (read_int64 (mkSource
        [("/sys/devices/system/cpu/cpu3/cpufreq/scaling_cur_freq", "2600000"),
         ("/sys/devices/system/cpu/cpu3/cpufreq/scaling_min_freq", "2400000"),
         ("/sys/devices/system/cpu/cpu3/cpufreq/scaling_max_freq", "2400000")] [])
        ("/sys/devices/system/cpu/cpu" ++ toString (3 : Int) ++ "/cpufreq/" ++ "scaling_cur_freq") = some 2600000) ∧
    ((CpuFrequencyCheck.Evaluate ⟨some 3, none⟩ (mkSource
        [("/sys/devices/system/cpu/cpu3/cpufreq/scaling_cur_freq", "2600000"),
         ("/sys/devices/system/cpu/cpu3/cpufreq/scaling_min_freq", "2400000"),
         ("/sys/devices/system/cpu/cpu3/cpufreq/scaling_max_freq", "2400000")] [])).status
      = (if (2400000 : Int) = 2400000 ∧ |(2600000 : Int) - 2400000| ≤ Int.tdiv ((2400000 : Int) * 5) 100
         then Status.Pass else Status.Fail)) ∧
    ((CpuFrequencyCheck.Evaluate ⟨some 3, none⟩ (mkSource
        [("/sys/devices/system/cpu/cpu3/cpufreq/scaling_cur_freq", "2600000"),
         ("/sys/devices/system/cpu/cpu3/cpufreq/scaling_min_freq", "2400000"),
         ("/sys/devices/system/cpu/cpu3/cpufreq/scaling_max_freq", "2400000")] [])).status
      = Status.Fail) := by
  have h := (c6_cpu_frequency (mkSource
        [("/sys/devices/system/cpu/cpu3/cpufreq/scaling_cur_freq", "2600000"),
         ("/sys/devices/system/cpu/cpu3/cpufreq/scaling_min_freq", "2400000"),
         ("/sys/devices/system/cpu/cpu3/cpufreq/scaling_max_freq", "2400000")] [])
      none 3 2600000 2400000 2400000).1 (by decide) (by decide) (by decide)
  refine ⟨by decide, h.1, ?_⟩
  rw [h.1]
  decide

/-- C7: when a NIC name is in the context but none of operstate, carrier and
address is readable, NicPresent evaluates to Unknown (not Fail); and the
dependent NIC checks (LinkUp, Quiet, IrqsPinned, Rps) appear in the NIC
report section exactly when NicPresent's status is Pass — otherwise the
section holds the presence result alone, no Unknown rows for them. -/
theorem c7_nic_gating (checkContext : CheckContext) (dataSource : IDataSource) (env : SysEnv)
    (nic : String) (hnic : checkContext.nic = some nic) :
    (NicExists dataSource nic = false →
      (NicPresenceCheck.Evaluate checkContext dataSource).status = Status.Unknown ∧
      (NicPresenceCheck.Evaluate checkContext dataSource).status ≠ Status.Fail) ∧
    ((NicPresenceCheck.Evaluate checkContext dataSource).status = Status.Pass →
      nicSection checkContext dataSource env
        = [NicPresenceCheck.Evaluate checkContext dataSource,
           NicLinkUpCheck.Evaluate checkContext dataSource,
           NicQuietCheck.Evaluate checkContext dataSource env,
           NicIrqsPinnedCheck.Evaluate checkContext dataSource,
           RpsDisabledCheck.Evaluate checkContext dataSource env]) ∧
    ((NicPresenceCheck.Evaluate checkContext dataSource).status ≠ Status.Pass →
      nicSection checkContext dataSource env = [NicPresenceCheck.Evaluate checkContext dataSource]) := by
  refine ⟨?_, ?_, ?_⟩
  · intro hex
    have hres : NicPresenceCheck.Evaluate checkContext dataSource
        = ⟨CheckKind.NicPresent, Status.Unknown, "NIC interface present", "interface not found"⟩ := by
      simp [NicPresenceCheck.Evaluate, hnic, hex]
    rw [hres]
    exact ⟨rfl, by decide⟩
  · intro hpass
    simp [nicSection, hnic, hpass]
  · intro hnot
    simp [nicSection, hnic, hnot]

/-- C7 witness: the spec's Scenario D — NIC `"eth9"` with nothing readable:
presence is Unknown and the section is just the presence row. -/
theorem c7_nic_gating_witness :
    ((⟨some 3, some "eth9"⟩ : CheckContext).nic = some "eth9") ∧
    NicExists emptySource "eth9" = false ∧
    (NicPresenceCheck.Evaluate ⟨some 3, some "eth9"⟩ emptySource).status = Status.Unknown ∧
    nicSection ⟨some 3, some "eth9"⟩ emptySource plainEnv
      = [NicPresenceCheck.Evaluate ⟨some 3, some "eth9"⟩ emptySource] := by
  have h := c7_nic_gating ⟨some 3, some "eth9"⟩ emptySource plainEnv "eth9" rfl
  exact ⟨rfl, by decide, (h.1 (by decide)).1, h.2.2 (by decide)⟩

/-! ## Lemmas for C10: the empty NIC filter -/

/-- Every string contains the empty substring (`str.find("") == 0`). -/
theorem containsSub_nil (hay : List Char) : containsSub hay [] = true := by
  cases hay <;> simp [containsSub, hasPfx]

/-- With the empty NIC filter, a row can only contribute an `(unlabeled)`
offender entry: the labeled branch requires the label not to contain the
filter, which never holds for the empty filter. -/
theorem rowOffender_empty_filter (cpuColumn : Int) (line entry : List Char)
    (h : rowOffender cpuColumn [] line = some entry) :
    ∃ irq, entry = irq ++ " (unlabeled)".data := by
  unfold rowOffender at h
  cases hl : line.dropWhile isSpaceB with
  | nil => rw [hl] at h; simp at h
  | cons c cs =>
    rw [hl] at h
    replace h : (if isDigitB c = false then none
        else
          match findCharIdx ':' (c :: cs) with
          | none => none
          | some colon =>
            match scanRow cpuColumn ((c :: cs).length + 1) ((c :: cs).drop (colon + 1)) (-1) 0 with
            | (some label, value) =>
              if 0 < value ∧ containsSub label [] = false then
                some ((c :: cs).take colon ++ " ".data ++ trimL label)
              else none
            | (none, value) =>
              if 0 < value then some ((c :: cs).take colon ++ " (unlabeled)".data) else none)
        = some entry := h
    by_cases hd : isDigitB c = false
    · rw [if_pos hd] at h; simp at h
    · rw [if_neg hd] at h
      cases hci : findCharIdx ':' (c :: cs) with
      | none => rw [hci] at h; simp at h
      | some colon =>
        cases hscan : scanRow cpuColumn ((c :: cs).length + 1) ((c :: cs).drop (colon + 1)) (-1) 0 with
        | mk lab value =>
          cases lab with
          | some label =>
            simp only [hci, hscan, containsSub_nil] at h
            simp at h
          | none =>
            simp only [hci, hscan] at h
            by_cases hv : (0 : Int) < value
            · rw [if_pos hv] at h
              injection h with he
              exact ⟨(c :: cs).take colon, he.symm⟩
            · rw [if_neg hv] at h; simp at h

/-- The `/proc/interrupts` fold with the empty NIC filter only accumulates
`(unlabeled)` offender entries. -/
theorem noUnrelatedScan_offenders (cpu : Int) :
    ∀ (lines : List (List Char)) (st : Bool × Int × List (List Char)),
      (∀ e ∈ st.2.2, ∃ irq, e = irq ++ " (unlabeled)".data) →
      ∀ e ∈ (lines.foldl (irqScanStep cpu []) st).2.2, ∃ irq, e = irq ++ " (unlabeled)".data := by
  intro lines
  induction lines with
  | nil => intro st hst; simpa using hst
  | cons line rest ih =>
    intro st hst
    simp only [List.foldl_cons]
    apply ih
    intro e he
    unfold irqScanStep at he
    by_cases h1 : line = []
    · rw [if_pos h1] at he; exact hst e he
    · rw [if_neg h1] at he
      by_cases h2 : st.1 = false
      · rw [if_pos h2] at he
        by_cases h3 : containsSub line (CpuHeaderTag ++ "0".data) = true
        · rw [h3] at he
          simp only [if_true] at he
          exact hst e he
        · rw [Bool.not_eq_true] at h3
          rw [h3] at he
          simp only [Bool.false_eq_true, if_false] at he
          exact hst e he
      · rw [if_neg h2] at he
        cases hro : rowOffender st.2.1 [] line with
        | none => rw [hro] at he; exact hst e he
        | some entry =>
          rw [hro] at he
          simp only [] at he
          rcases List.mem_append.mp he with hmem | hmem
          · exact hst e hmem
          · rw [List.mem_singleton.mp hmem]
            exact rowOffender_empty_filter st.2.1 line entry hro

/-- C10: with a cpu in the context and no NIC, the label filter of
NoUnrelatedIrqsOnRt is the empty string, so no labeled IRQ row is ever
reported as an offender regardless of its count at the RT column: every
computed offender entry is of the unlabeled form, Fail can only arise from a
nonempty unlabeled-offender list, and when the offender list is empty (and
the CPU column was found) the check passes with reason "clean" — labeled
non-NIC IRQ activity goes unreported. -/
theorem c10_empty_filter_unlabeled_only (checkContext : CheckContext) (dataSource : IDataSource)
    (cpu : Int) (content : String)
    (hcpu : checkContext.cpu = some cpu) (hnic : checkContext.nic = none)
    (hread : dataSource.Read "/proc/interrupts" = some content) :
    (∀ e ∈ (noUnrelatedScan cpu [] (getLines content.data)).2.2, ∃ irq, e = irq ++ " (unlabeled)".data) ∧
    ((NoUnrelatedIrqsOnRtCheck.Evaluate checkContext dataSource).status = Status.Fail →
      (noUnrelatedScan cpu [] (getLines content.data)).2.2 ≠ []) ∧
    (¬ (noUnrelatedScan cpu [] (getLines content.data)).2.1 < 0 →
      (noUnrelatedScan cpu [] (getLines content.data)).2.2 = [] →
      NoUnrelatedIrqsOnRtCheck.Evaluate checkContext dataSource
        = ⟨CheckKind.NoUnrelatedIrqsOnRt, Status.Pass, "No unrelated IRQs on RT core", "clean"⟩) := by
  have hscan : ∀ e ∈ (noUnrelatedScan cpu [] (getLines content.data)).2.2,
      ∃ irq, e = irq ++ " (unlabeled)".data :=
    noUnrelatedScan_offenders cpu (getLines content.data) (false, -1, []) (by simp)
  have hdat : ("" : String).data = [] := rfl
  refine ⟨hscan, ?_, ?_⟩
  · intro hfail hempty
    by_cases hcol : (noUnrelatedScan cpu [] (getLines content.data)).2.1 < 0
    · have hunk : (NoUnrelatedIrqsOnRtCheck.Evaluate checkContext dataSource).status = Status.Unknown := by
        simp [NoUnrelatedIrqsOnRtCheck.Evaluate, hcpu, hnic, hread, hdat, hcol]
      rw [hunk] at hfail
      exact absurd hfail (by decide)
    · have hpass : (NoUnrelatedIrqsOnRtCheck.Evaluate checkContext dataSource).status = Status.Pass := by
        simp [NoUnrelatedIrqsOnRtCheck.Evaluate, hcpu, hnic, hread, hdat, hcol, hempty]
      rw [hpass] at hfail
      exact absurd hfail (by decide)
  · intro hcol hempty
    simp [NoUnrelatedIrqsOnRtCheck.Evaluate, hcpu, hnic, hread, hdat, hcol, hempty]

/-- C10 witness: a concrete `/proc/interrupts` with a labeled row carrying
5000 interrupts at the RT core's column — with no NIC in the context the
check still reports Pass "clean". -/
theorem c10_empty_filter_unlabeled_only_witness :
    ((⟨some 1, none⟩ : CheckContext).cpu = some 1 ∧
     (⟨some 1, none⟩ : CheckContext).nic = none ∧
     (mkSource [("/proc/interrupts",
        "            CPU0       CPU1\n  10:          0       5000   IR-IO-APIC   10-edge      timer\n")] []).Read
        "/proc/interrupts"
      = some "            CPU0       CPU1\n  10:          0       5000   IR-IO-APIC   10-edge      timer\n") ∧
    (∀ e ∈ (noUnrelatedScan 1 [] (getLines
        "            CPU0       CPU1\n  10:          0       5000   IR-IO-APIC   10-edge      timer\n".data)).2.2,
      ∃ irq, e = irq ++ " (unlabeled)".data) ∧
    NoUnrelatedIrqsOnRtCheck.Evaluate ⟨some 1, none⟩
        (mkSource [("/proc/interrupts",
          "            CPU0       CPU1\n  10:          0       5000   IR-IO-APIC   10-edge      timer\n")] [])
      = ⟨CheckKind.NoUnrelatedIrqsOnRt, Status.Pass, "No unrelated IRQs on RT core", "clean"⟩ := by
  have h := c10_empty_filter_unlabeled_only ⟨some 1, none⟩
    (mkSource [("/proc/interrupts",
      "            CPU0       CPU1\n  10:          0       5000   IR-IO-APIC   10-edge      timer\n")] [])
    1 "            CPU0       CPU1\n  10:          0       5000   IR-IO-APIC   10-edge      timer\n"
    rfl rfl (by decide)
  exact ⟨⟨rfl, rfl, by decide⟩, h.1, h.2.2 (by decide) (by decide)⟩

end Evaluator
